import Mathlib

/-!
A verification development for the `aurora-data-api` client library.

The Python sources under `aurora_data_api/` (`base.py`, `sync.py`,
`exceptions.py`) are shallowly embedded below: pure helpers become Lean
functions, the stateful cursor/connection operations become explicit
state-passing functions over mock service oracles, and Python exceptions
become explicit error values.  The embedding follows the source line by
line; comments cite the functions being modelled.
-/

namespace AuroraDataAPI

/-! ## Generic string helpers

Python's `needle in haystack` (contiguous substring test) and fixed
pattern stripping, used by `execute` and by the error classifier. -/

/-- Prefix test on char lists. -/
def charsStartWith : List Char → List Char → Bool
  | [], _ => true
  | _ :: _, [] => false
  | p :: ps, c :: cs => p = c && charsStartWith ps cs

/-- Contiguous substring test on char lists. -/
def charsContain (needle : List Char) : List Char → Bool
  | [] => charsStartWith needle []
  | c :: cs => charsStartWith needle (c :: cs) || charsContain needle cs

/-- Python `needle in haystack` on strings: contiguous substring test. -/
def strContains (haystack needle : String) : Bool :=
  charsContain needle.data haystack.data

/-- Strip an expected literal pattern from the front of a char list,
returning the remainder on success. -/
def stripLit : List Char → List Char → Option (List Char)
  | [], cs => some cs
  | _ :: _, [] => none
  | p :: ps, c :: cs => if p = c then stripLit ps cs else none

/-- Numeric value of a most-significant-first digit list
(`foldl`-style, as a left-to-right scan computes it). -/
def valOfDigits (l : List Nat) : Nat := l.foldl (fun a d => 10 * a + d) 0

/-- The ASCII digit character for a digit value. -/
def digitChar (d : Nat) : Char := Char.ofNat (48 + d)

/-- Digit value of an ASCII digit character. -/
def charVal (c : Char) : Nat := c.toNat - 48

/-- Python `"%02d" % n` for `n ≤ 99`: two zero-padded decimal digits. -/
def pad2 (n : Nat) : List Char := [digitChar (n / 10 % 10), digitChar (n % 10)]

/-- Python `"%04d" % n` for `n ≤ 9999`: four zero-padded decimal digits. -/
def pad4 (n : Nat) : List Char :=
  [digitChar (n / 1000 % 10), digitChar (n / 100 % 10), digitChar (n / 10 % 10), digitChar (n % 10)]

/-- Python `"%06d" % n` for `n ≤ 999999`: six zero-padded decimal digits. -/
def pad6 (n : Nat) : List Char :=
  [digitChar (n / 100000 % 10), digitChar (n / 10000 % 10), digitChar (n / 1000 % 10),
   digitChar (n / 100 % 10), digitChar (n / 10 % 10), digitChar (n % 10)]

/-- Decimal rendering of a `Nat` as digit characters (`str(n)` in Python):
`Nat.digits` is little-endian, so reverse it. `0` renders as `"0"`. -/
def natChars (n : Nat) : List Char :=
  if n = 0 then ['0'] else ((Nat.digits 10 n).reverse).map digitChar

/-! ## Value codec: host-side data model

Python values handled by `BaseAuroraDataAPICursor.prepare_param` and
`_render_value` (base.py).  A Python `float` is never inspected by the
codec (it is passed through as the wire `doubleValue`), so it is modelled
as an opaque 64-bit payload. -/

/-- Opaque model of a Python `float`: the codec passes floats through
untouched, so only the identity of the payload matters. -/
structure PyFloat where
  bits : Nat
deriving DecidableEq, Repr

/-- Model of `datetime.date`. -/
structure PyDate where
  year : Nat
  month : Nat
  day : Nat
deriving DecidableEq, Repr

/-- Model of `datetime.time` (naive, no tzinfo — the codec never attaches one). -/
structure PyTime where
  hour : Nat
  minute : Nat
  second : Nat
  microsecond : Nat
deriving DecidableEq, Repr

/-- Model of `datetime.datetime` (naive). -/
structure PyDateTime where
  date : PyDate
  time : PyTime
deriving DecidableEq, Repr

/-- Model of a finite `decimal.Decimal`: sign, coefficient digits
(most significant first, as in `Decimal.as_tuple`), exponent. -/
structure PyDecimal where
  negative : Bool
  digits : List Nat
  exp : Int
deriving DecidableEq, Repr

/-- Gregorian leap year rule (as `datetime` uses). -/
def isLeapYear (y : Nat) : Bool := y % 4 = 0 && (y % 100 ≠ 0 || y % 400 = 0)

/-- Days in a month, as validated by the `datetime.date` constructor. -/
def daysInMonth (y m : Nat) : Nat :=
  if m = 2 then (if isLeapYear y then 29 else 28)
  else if m = 4 ∨ m = 6 ∨ m = 9 ∨ m = 11 then 30
  else 31

/-- The invariants `datetime.date` enforces on construction. -/
def PyDate.valid (d : PyDate) : Bool :=
  1 ≤ d.year && d.year ≤ 9999 && 1 ≤ d.month && d.month ≤ 12 &&
  1 ≤ d.day && d.day ≤ daysInMonth d.year d.month

/-- The invariants `datetime.time` enforces on construction. -/
def PyTime.valid (t : PyTime) : Bool :=
  t.hour ≤ 23 && t.minute ≤ 59 && t.second ≤ 59 && t.microsecond ≤ 999999

/-- The invariants `datetime.datetime` enforces on construction. -/
def PyDateTime.valid (dt : PyDateTime) : Bool := dt.date.valid && dt.time.valid

/-- A `Decimal` in the canonical form produced by parsing a numeric
string: nonempty coefficient, digits below 10, and no leading zero
except for the single-digit zero coefficient. -/
def PyDecimal.canonical (x : PyDecimal) : Prop :=
  x.digits ≠ [] ∧ (∀ d ∈ x.digits, d < 10) ∧ (x.digits.head? = some 0 → x.digits = [0])

instance : DecidablePred PyDecimal.canonical := fun x => by
  unfold PyDecimal.canonical; infer_instance

/-! ## Value codec: Python `str()` renderings

`prepare_param` encodes date/time/timestamp/decimal parameters via
`str(param_value)` (base.py line 149). -/

/-- Python `str(datetime.date(y, m, d))` = `"YYYY-MM-DD"` (zero-padded). -/
def dateChars (d : PyDate) : List Char :=
  pad4 d.year ++ '-' :: pad2 d.month ++ '-' :: pad2 d.day

/-- Python `str(datetime.time(...))` = `"HH:MM:SS"` plus `".ffffff"` only when
the microsecond field is nonzero. -/
def timeChars (t : PyTime) : List Char :=
  pad2 t.hour ++ ':' :: pad2 t.minute ++ ':' :: pad2 t.second ++
    (if t.microsecond = 0 then [] else '.' :: pad6 t.microsecond)

/-- Python `str(datetime.datetime(...))`: date, a space separator, time. -/
def datetimeChars (dt : PyDateTime) : List Char :=
  dateChars dt.date ++ ' ' :: timeChars dt.time

/-- Python `str(Decimal)`: the to-scientific-string conversion of the decimal
specification as implemented by `Decimal.__str__`. -/
def PyDecimal.sciChars (x : PyDecimal) : List Char :=
  let leftdigits : Int := x.exp + x.digits.length
  let dotplace : Int := if x.exp ≤ 0 ∧ leftdigits > -6 then leftdigits else 1
  let body : List Char :=
    if dotplace ≤ 0 then
      '0' :: '.' :: (List.replicate (-dotplace).toNat '0' ++ x.digits.map digitChar)
    else if dotplace ≥ (x.digits.length : Int) then
      x.digits.map digitChar ++ List.replicate (dotplace.toNat - x.digits.length) '0'
    else
      (x.digits.take dotplace.toNat).map digitChar ++
        '.' :: (x.digits.drop dotplace.toNat).map digitChar
  let expPart : List Char :=
    if leftdigits = dotplace then []
    else if leftdigits - dotplace ≥ 0 then
      'E' :: '+' :: natChars (leftdigits - dotplace).toNat
    else
      'E' :: '-' :: natChars (dotplace - leftdigits).toNat
  (if x.negative then ['-'] else []) ++ body ++ expPart

def dateStr (d : PyDate) : String := ⟨dateChars d⟩
def timeStr (t : PyTime) : String := ⟨timeChars t⟩
def datetimeStr (dt : PyDateTime) : String := ⟨datetimeChars dt⟩
def decimalStr (x : PyDecimal) : String := ⟨x.sciChars⟩

/-! ## Value codec: parsers used by `_render_value`

`_render_value` re-parses textual scalars for hinted column types: first
`type_code.fromisoformat(...)` (CPython ≤ 3.10 grammar, modelled without
timezone suffixes, which the wire values never carry), then on
`ValueError`/`AttributeError` the `datetime.strptime` fallbacks
(base.py lines 246-256). -/

/-- Two-digit field value. -/
def val2 (a b : Char) : Nat := 10 * charVal a + charVal b

/-- Four-digit field value. -/
def val4 (a b c d : Char) : Nat :=
  1000 * charVal a + 100 * charVal b + 10 * charVal c + charVal d

/-- Python `datetime.date.fromisoformat`: exactly `YYYY-MM-DD`, then the
`date()` constructor validation. -/
def dateFromIso (cs : List Char) : Option PyDate :=
  match cs with
  | [y1, y2, y3, y4, '-', m1, m2, '-', d1, d2] =>
    if ([y1, y2, y3, y4, m1, m2, d1, d2].all Char.isDigit) then
      let d : PyDate := ⟨val4 y1 y2 y3 y4, val2 m1 m2, val2 d1 d2⟩
      if d.valid then some d else none
    else none
  | _ => none

/-- Microseconds from the fractional part of an ISO time: exactly three
or six digits are accepted (CPython ≤ 3.10 `_parse_isoformat_time`). -/
def isoFraction (cs : List Char) : Option Nat :=
  match cs with
  | [a, b, c] =>
    if [a, b, c].all Char.isDigit then some (1000 * (100 * charVal a + 10 * charVal b + charVal c))
    else none
  | [a, b, c, d, e, f] =>
    if [a, b, c, d, e, f].all Char.isDigit then
      some (100000 * charVal a + 10000 * charVal b + 1000 * charVal c +
            100 * charVal d + 10 * charVal e + charVal f)
    else none
  | _ => none

/-- Python `datetime.time.fromisoformat`: `HH[:MM[:SS[.fff|.ffffff]]]`, then the
`time()` constructor validation. -/
def timeFromIso (cs : List Char) : Option PyTime :=
  let build (h m s us : Nat) (digitCond : Bool) : Option PyTime :=
    if digitCond then
      let t : PyTime := ⟨h, m, s, us⟩
      if t.valid then some t else none
    else none
  match cs with
  | [h1, h2] => build (val2 h1 h2) 0 0 0 ([h1, h2].all Char.isDigit)
  | [h1, h2, ':', m1, m2] =>
    build (val2 h1 h2) (val2 m1 m2) 0 0 ([h1, h2, m1, m2].all Char.isDigit)
  | [h1, h2, ':', m1, m2, ':', s1, s2] =>
    build (val2 h1 h2) (val2 m1 m2) (val2 s1 s2) 0 ([h1, h2, m1, m2, s1, s2].all Char.isDigit)
  | h1 :: h2 :: ':' :: m1 :: m2 :: ':' :: s1 :: s2 :: '.' :: frac =>
    match isoFraction frac with
    | some us => build (val2 h1 h2) (val2 m1 m2) (val2 s1 s2) us
        ([h1, h2, m1, m2, s1, s2].all Char.isDigit)
    | none => none
  | _ => none

/-- Python `datetime.datetime.fromisoformat`: ten date characters, then
optionally one arbitrary separator character and a time part. -/
def datetimeFromIso (cs : List Char) : Option PyDateTime :=
  match dateFromIso (cs.take 10) with
  | none => none
  | some d =>
    match cs.drop 10 with
    | [] => some ⟨d, ⟨0, 0, 0, 0⟩⟩
    | _ :: timePart =>
      match timeFromIso timePart with
      | some t => some ⟨d, t⟩
      | none => none

/-- A run of decimal digits (1 to `maxLen` long, greedy) and the rest. -/
def digitRun (maxLen : Nat) (cs : List Char) : Option (Nat × List Char) :=
  let run := (cs.takeWhile Char.isDigit).take maxLen
  if run.isEmpty then none
  else some (valOfDigits (run.map charVal), cs.drop run.length)

/-- Python `datetime.strptime(s, "%Y-%m-%d")` fallback: flexible-width numeric
fields, full range validation via the `date` constructor. -/
def dateFromStrp (cs : List Char) : Option PyDate :=
  match digitRun 4 cs with
  | some (y, '-' :: r1) =>
    match digitRun 2 r1 with
    | some (m, '-' :: r2) =>
      match digitRun 2 r2 with
      | some (d, []) =>
        let dt : PyDate := ⟨y, m, d⟩
        if dt.valid then some dt else none
      | _ => none
    | _ => none
  | _ => none

/-- Python `datetime.strptime(s, "%H:%M:%S")` fallback. -/
def timeFromStrp (cs : List Char) : Option PyTime :=
  match digitRun 2 cs with
  | some (h, ':' :: r1) =>
    match digitRun 2 r1 with
    | some (m, ':' :: r2) =>
      match digitRun 2 r2 with
      | some (s, []) =>
        let t : PyTime := ⟨h, m, s, 0⟩
        if t.valid then some t else none
      | _ => none
    | _ => none
  | _ => none

/-- Python `%f`: one to six fractional digits, zero-padded on the right to
microseconds. -/
def strpFraction (cs : List Char) : Option Nat :=
  if cs.isEmpty ∨ cs.length > 6 ∨ ¬ cs.all Char.isDigit then none
  else some (valOfDigits (cs.map charVal) * 10 ^ (6 - cs.length))

/-- Python `datetime.strptime` fallback for timestamps: the code picks
`"%Y-%m-%d %H:%M:%S.%f"` when the scalar contains a `'.'` and
`"%Y-%m-%d %H:%M:%S"` otherwise (base.py lines 253-256). -/
def datetimeFromStrp (cs : List Char) : Option PyDateTime :=
  match digitRun 4 cs with
  | some (y, '-' :: r1) =>
    match digitRun 2 r1 with
    | some (mo, '-' :: r2) =>
      match digitRun 2 r2 with
      | some (d, ' ' :: r3) =>
        match digitRun 2 r3 with
        | some (h, ':' :: r4) =>
          match digitRun 2 r4 with
          | some (mi, ':' :: r5) =>
            match digitRun 2 r5 with
            | some (s, rest) =>
              let mk (us : Nat) : Option PyDateTime :=
                let dt : PyDateTime := ⟨⟨y, mo, d⟩, ⟨h, mi, s, us⟩⟩
                if dt.valid then some dt else none
              match rest with
              | [] => mk 0
              | '.' :: frac =>
                match strpFraction frac with
                | some us => mk us
                | none => none
              | _ => none
            | _ => none
          | _ => none
        | _ => none
      | _ => none
    | _ => none
  | _ => none

/-! ## Value codec: `Decimal(string)` parsing

`Decimal(scalar_value)` in `_render_value` (base.py line 244); the
CPython numeric-string grammar for finite values (special values,
surrounding whitespace and underscores are not produced by the wire and
are not modelled). The coefficient is normalised through
`str(int(intpart + fracpart))`, which strips leading zeros down to a
single `0`. -/

/-- Exponent suffix: empty, or `E`/`e` with optional sign and digits. -/
def parseExpTail (cs : List Char) : Option Int :=
  let signedDigits : List Char → Option Int := fun ds' =>
    let core : Bool → List Char → Option Int := fun neg ds =>
      if ds.isEmpty ∨ ¬ ds.all Char.isDigit then none
      else
        let n : Int := valOfDigits (ds.map charVal)
        some (if neg then -n else n)
    match ds' with
    | '+' :: ds => core false ds
    | '-' :: ds => core true ds
    | ds => core false ds
  match cs with
  | [] => some 0
  | 'E' :: rest => signedDigits rest
  | 'e' :: rest => signedDigits rest
  | _ => none

/-- Strip leading zero digits, keeping at least one digit
(`str(int(...))` semantics on a nonempty digit string). -/
def normCoeff (ds : List Nat) : List Nat :=
  match ds.dropWhile (· = 0) with
  | [] => [0]
  | l => l

/-- The numeric part of `Decimal(string)` after the optional sign:
integer digits, optional `.` and fraction digits (at least one digit in
total), optional exponent suffix. -/
def parseDecimalBody (neg : Bool) (cs1 : List Char) : Option PyDecimal :=
  let ip := cs1.takeWhile Char.isDigit
  let r1 := cs1.dropWhile Char.isDigit
  let (fp, r2) :=
    match r1 with
    | '.' :: r => (r.takeWhile Char.isDigit, r.dropWhile Char.isDigit)
    | _ => (([] : List Char), r1)
  if ip.isEmpty ∧ fp.isEmpty then none
  else
    match parseExpTail r2 with
    | none => none
    | some e =>
      some ⟨neg, normCoeff ((ip ++ fp).map charVal), e - fp.length⟩

/-- Python `Decimal(string)` for finite numeric strings: optional sign, then
the numeric body. -/
def parseDecimalChars (cs : List Char) : Option PyDecimal :=
  match cs with
  | [] => parseDecimalBody false []
  | c :: r =>
    if c = '-' then parseDecimalBody true r
    else if c = '+' then parseDecimalBody false r
    else parseDecimalBody false (c :: r)

def parseDecimal (s : String) : Option PyDecimal := parseDecimalChars s.data

/-! ## Value codec: wire values and parameter encoding

The tagged wire value of the Data API (`isNull`, `blobValue`,
`booleanValue`, `doubleValue`, `longValue`, `stringValue`, `arrayValue`).
In Python these are single-key dicts; the `arrayValue` dict either holds
nested `arrayValues` or one homogeneous primitive list. -/

mutual
/-- One tagged wire value. -/
inductive WireValue where
  | isNull
  | blobValue (b : List Nat)
  | booleanValue (b : Bool)
  | doubleValue (f : PyFloat)
  | longValue (n : Int)
  | stringValue (s : String)
  | arrayValue (p : ArrayPayload)

/-- The single entry of an `arrayValue` dict. -/
inductive ArrayPayload where
  | arrayValues (l : List WireValue)
  | stringValues (l : List String)
  | longValues (l : List Int)
  | booleanValues (l : List Bool)
  | doubleValues (l : List PyFloat)
end

/-- The Python scalar parameter values `prepare_param` dispatches on
(exact-`type()` lookup in `_data_api_type_map` / `_data_api_type_hint_map`). -/
inductive ParamValue where
  | none
  | bool (b : Bool)
  | int (n : Int)
  | float (f : PyFloat)
  | str (s : String)
  | bytes (b : List Nat)
  | date (d : PyDate)
  | time (t : PyTime)
  | datetime (dt : PyDateTime)
  | decimal (x : PyDecimal)
deriving DecidableEq, Repr

/-- Host values produced by `_render_value` (decoded rows). -/
inductive HostValue where
  | none
  | bool (b : Bool)
  | int (n : Int)
  | float (f : PyFloat)
  | str (s : String)
  | bytes (b : List Nat)
  | date (d : PyDate)
  | time (t : PyTime)
  | datetime (dt : PyDateTime)
  | decimal (x : PyDecimal)
  | list (elems : List HostValue)

/-- The host value a parameter denotes (used to state round-trips). -/
def ParamValue.toHost : ParamValue → HostValue
  | .none => .none
  | .bool b => .bool b
  | .int n => .int n
  | .float f => .float f
  | .str s => .str s
  | .bytes b => .bytes b
  | .date d => .date d
  | .time t => .time t
  | .datetime dt => .datetime dt
  | .decimal x => .decimal x

/-- The validity invariant the Python constructors guarantee for a
parameter value (trivial for types without internal invariants). -/
def ParamValue.valid : ParamValue → Prop
  | .date d => d.valid = true
  | .time t => t.valid = true
  | .datetime dt => dt.valid = true
  | .decimal x => x.canonical
  | _ => True

instance : DecidablePred ParamValue.valid := fun v => by
  cases v <;> simp only [ParamValue.valid] <;> infer_instance

/-- An encoded parameter: `{"name": ..., "value": {...}, "typeHint": ...}`. -/
structure WireParam where
  name : String
  value : WireValue
  typeHint : Option String

/-- Python `BaseAuroraDataAPICursor.prepare_param` (base.py lines 143-152):
`None` becomes an explicit null; the exact runtime type selects the wire
tag via `_data_api_type_map` with default `stringValue`; non-`str` values
that land on `stringValue` are rendered with `str(...)`; date, time,
datetime and `Decimal` additionally carry the type hint from
`_data_api_type_hint_map`. -/
def prepare_param (param_name : String) : ParamValue → WireParam
  | .none => ⟨param_name, .isNull, Option.none⟩
  | .bool b => ⟨param_name, .booleanValue b, Option.none⟩
  | .int n => ⟨param_name, .longValue n, Option.none⟩
  | .float f => ⟨param_name, .doubleValue f, Option.none⟩
  | .str s => ⟨param_name, .stringValue s, Option.none⟩
  | .bytes b => ⟨param_name, .blobValue b, Option.none⟩
  | .date d => ⟨param_name, .stringValue (dateStr d), some "DATE"⟩
  | .time t => ⟨param_name, .stringValue (timeStr t), some "TIME"⟩
  | .datetime dt => ⟨param_name, .stringValue (datetimeStr dt), some "TIMESTAMP"⟩
  | .decimal x => ⟨param_name, .stringValue (decimalStr x), some "DECIMAL"⟩

/-! ## Result renderer: column descriptions and `_render_value` -/

/-- The Python objects `_pg_type_map` maps engine type names to (types or
callables); only their identity matters to the renderer. -/
inductive TypeCode where
  | int
  | float
  | bool
  | bytes
  | bytearray
  | str
  | ipNetworkFn
  | date
  | ipAddressFn
  | dict
  | time
  | datetime
  | uuid4Fn
  | decimal
deriving DecidableEq, Repr

/-- Python `_pg_type_map` lookup with default `str` (`_set_description`,
base.py line 166), applied to the lower-cased engine type name. -/
def pgTypeMap (typeName : String) : TypeCode :=
  if typeName = "int" ∨ typeName = "int2" ∨ typeName = "int4" ∨ typeName = "int8" ∨
     typeName = "serial2" ∨ typeName = "serial4" ∨ typeName = "serial8" then .int
  else if typeName = "float4" ∨ typeName = "float8" then .float
  else if typeName = "bool" then .bool
  else if typeName = "varbit" then .bytes
  else if typeName = "bytea" then .bytearray
  else if typeName = "char" ∨ typeName = "varchar" ∨ typeName = "money" ∨
          typeName = "text" then .str
  else if typeName = "cidr" then .ipNetworkFn
  else if typeName = "date" then .date
  else if typeName = "inet" then .ipAddressFn
  else if typeName = "json" ∨ typeName = "jsonb" then .dict
  else if typeName = "time" then .time
  else if typeName = "timestamp" then .datetime
  else if typeName = "uuid" then .uuid4Fn
  else if typeName = "numeric" ∨ typeName = "decimal" then .decimal
  else .str

/-- One entry of `cursor.description` (the namedtuple's unused
display/size/precision fields are always `None` and omitted). -/
structure ColumnDescription where
  name : String
  type_code : TypeCode
deriving DecidableEq, Repr

/-- Membership of a type code in `_data_api_type_hint_map`
(keys: `date`, `time`, `datetime`, `Decimal`). -/
def hintedTypeCode (tc : TypeCode) : Bool :=
  tc = .date ∨ tc = .time ∨ tc = .datetime ∨ tc = .decimal

/-- Exceptions `_render_value` can raise (uncaught). -/
inductive RenderErr where
  | typeErr
  | valueErr
  | indexErr
deriving DecidableEq, Repr

/-- Python `Decimal(int)` — exact integer decimal. -/
def decimalOfInt (n : Int) : PyDecimal :=
  ⟨n < 0, if n = 0 then [0] else ((Nat.digits 10 n.natAbs).reverse), 0⟩

/-- The scalar a single-tag wire dict encloses
(`list(value.values())[0]`). -/
def scalarOfWire : WireValue → HostValue
  | .isNull => .none
  | .blobValue b => .bytes b
  | .booleanValue b => .bool b
  | .doubleValue f => .float f
  | .longValue n => .int n
  | .stringValue s => .str s
  | .arrayValue _ => .none

mutual
/-- Python `BaseAuroraDataAPICursor._render_value` (base.py lines 232-257):
null markers decode to `None`; an `arrayValue` with nested `arrayValues`
decodes element-wise (without a column description), otherwise it
degrades to the single primitive list it wraps; any other tag yields its
enclosed scalar, except that for a column whose `type_code` is in
`_data_api_type_hint_map` the textual scalar is re-parsed —
`Decimal(...)` for decimals, `fromisoformat` with `strptime` fallbacks
for date/time/timestamp. Non-string scalars reaching `fromisoformat`
raise `TypeError` (only `AttributeError`/`ValueError` are caught). -/
def renderValue (value : WireValue) (col_desc : Option ColumnDescription) :
    Except RenderErr HostValue :=
  match value with
  | .isNull => .ok .none
  | .arrayValue (.arrayValues l) =>
    match renderList l with
    | .ok hs => .ok (.list hs)
    | .error e => .error e
  | .arrayValue (.stringValues l) => .ok (.list (l.map .str))
  | .arrayValue (.longValues l) => .ok (.list (l.map .int))
  | .arrayValue (.booleanValues l) => .ok (.list (l.map .bool))
  | .arrayValue (.doubleValues l) => .ok (.list (l.map .float))
  | v =>
    match col_desc with
    | some cd =>
      if hintedTypeCode cd.type_code then
        if cd.type_code = .decimal then
          match v with
          | .stringValue s =>
            match parseDecimal s with
            | some x => .ok (.decimal x)
            | none => .error .valueErr
          | .longValue n => .ok (.decimal (decimalOfInt n))
          | .booleanValue b => .ok (.decimal (decimalOfInt (if b then 1 else 0)))
          | _ => .error .typeErr
        else
          match v with
          | .stringValue s =>
            match cd.type_code with
            | .date =>
              match dateFromIso s.data with
              | some d => .ok (.date d)
              | none =>
                match dateFromStrp s.data with
                | some d => .ok (.date d)
                | none => .error .valueErr
            | .time =>
              match timeFromIso s.data with
              | some t => .ok (.time t)
              | none =>
                match timeFromStrp s.data with
                | some t => .ok (.time t)
                | none => .error .valueErr
            | _ =>
              match datetimeFromIso s.data with
              | some dt => .ok (.datetime dt)
              | none =>
                match datetimeFromStrp s.data with
                | some dt => .ok (.datetime dt)
                | none => .error .valueErr
          | _ => .error .typeErr
      else .ok (scalarOfWire v)
    | Option.none => .ok (scalarOfWire v)

/-- Element-wise decoding of nested `arrayValues` (each without a column
description, as in the source's recursive call). -/
def renderList (l : List WireValue) : Except RenderErr (List HostValue) :=
  match l with
  | [] => .ok []
  | v :: vs =>
    match renderValue v Option.none with
    | .error e => .error e
    | .ok h =>
      match renderList vs with
      | .error e => .error e
      | .ok hs => .ok (h :: hs)
end

/-- The column `type_code` under which each parameter kind comes back
from the engine (the matching semantic type of the claim). -/
def matchingTypeCode : ParamValue → TypeCode
  | .none => .str
  | .bool _ => .bool
  | .int _ => .int
  | .float _ => .float
  | .str _ => .str
  | .bytes _ => .bytes
  | .date _ => .date
  | .time _ => .time
  | .datetime _ => .datetime
  | .decimal _ => .decimal

/-! ## Error classifier (`_get_database_error`, base.py lines 183-202)

The service error object: botocore exceptions carry a `response` dict;
the message is read via
`getattr(e, "response", {}).get("Error", {}).get("Message", "")`.

The code resolves matched codes through `MySQLError.from_code` /
`PostgreSQLError.from_code` (exceptions.py), whose code tables live in
modules that are not part of the sources here; the tables are therefore
taken as parameters mapping a code to the synthesized class name, with
`none` for an unregistered code (in which case the enum lookup raises
and the `except Exception` clause falls through to the generic error). -/

/-- The `Error` entry of a service response. -/
structure AwsError where
  Message : Option String
deriving DecidableEq, Repr

/-- A service response payload (only the error entry is inspected). -/
structure AwsResponse where
  Error : Option AwsError
deriving DecidableEq, Repr

/-- The original service exception handed to the classifier. -/
structure OrigError where
  response : Option AwsResponse
deriving DecidableEq, Repr

/-- Python `getattr(e, "response", {}).get("Error", {}).get("Message", "")`. -/
def errorMsgOf (e : OrigError) : String :=
  (((e.response.bind (·.Error)).bind (·.Message)).getD "")

/-- Python `getattr(original_error, "response", {})` — the value stored on the
classified error's `response` attribute. -/
def responseAttrValue (e : OrigError) : AwsResponse :=
  e.response.getD ⟨Option.none⟩

/-- Leftmost match of `re.search(r"Error code: (\d+); SQLState: (\d+)$", msg)`
anchored at this position, returning group 1 as a number. Since both the
separator and the anchor exclude digits, greedy matching needs no
backtracking. Messages are modelled without a trailing newline (Python's
`$` would also match just before one). -/
def mysqlMatchAt (cs : List Char) : Option Nat :=
  match stripLit "Error code: ".data cs with
  | Option.none => Option.none
  | some rest =>
    let d1 := rest.takeWhile Char.isDigit
    let rest1 := rest.dropWhile Char.isDigit
    if d1.isEmpty then Option.none
    else
      match stripLit "; SQLState: ".data rest1 with
      | Option.none => Option.none
      | some rest2 =>
        if ¬ rest2.isEmpty ∧ rest2.all Char.isDigit then
          some (valOfDigits (d1.map charVal))
        else Option.none

/-- Python `re.search` scan: try each start position left to right. -/
def mysqlSearchAux : List Char → Option Nat
  | [] => Option.none
  | c :: rest =>
    match mysqlMatchAt (c :: rest) with
    | some n => some n
    | Option.none => mysqlSearchAux rest

/-- The MySQL message pattern of `_get_database_error`. -/
def mysqlSearch (msg : String) : Option Nat := mysqlSearchAux msg.data

/-- Tail of the PostgreSQL pattern after the separator:
`" Position: (\d+); SQLState: (\w+)$"`, returning group 2. `\w` is
modelled as ASCII alphanumeric or underscore. -/
def pgTailMatch (cs : List Char) : Option (List Char) :=
  match stripLit " Position: ".data cs with
  | Option.none => Option.none
  | some r1 =>
    let d := r1.takeWhile Char.isDigit
    let r2 := r1.dropWhile Char.isDigit
    if d.isEmpty then Option.none
    else
      match stripLit "; SQLState: ".data r2 with
      | Option.none => Option.none
      | some r3 =>
        if ¬ r3.isEmpty ∧ r3.all (fun c => c.isAlphanum || c = '_') then some r3
        else Option.none

/-- The part of `re.search(r"ERROR: .*(?:\n |;) Position: ...", msg)`
after the literal `"ERROR: "`: the greedy `.*` (which cannot cross a
newline) prefers the rightmost separator, backtracking leftwards; a
newline can only serve as the separator itself, never be skipped. -/
def pgScan : List Char → Option (List Char)
  | [] => Option.none
  | '\n' :: rest =>
    match rest with
    | ' ' :: tail => pgTailMatch tail
    | _ => Option.none
  | ';' :: rest =>
    match pgScan rest with
    | some g => some g
    | Option.none => pgTailMatch rest
  | _ :: rest => pgScan rest

/-- Python `re.search` scan for the PostgreSQL pattern: leftmost start where
`"ERROR: "` matches and the remainder of the pattern succeeds. -/
def pgSearchAux : List Char → Option (List Char)
  | [] => Option.none
  | c :: rest =>
    match stripLit "ERROR: ".data (c :: rest) with
    | some after =>
      match pgScan after with
      | some g => some g
      | Option.none => pgSearchAux rest
    | Option.none => pgSearchAux rest

/-- The PostgreSQL message pattern of `_get_database_error`, returning
the alphanumeric SQL state (group 2). -/
def pgSearch (msg : String) : Option String :=
  (pgSearchAux msg.data).map fun l => ⟨l⟩

/-- The exception object `_get_database_error` returns: either a typed
engine error (a synthesized `DatabaseError` subclass, message argument,
and a `response` attribute set to the original response payload), or the
generic `DatabaseError(original_error)` fallback, which wraps the
original exception object as its argument and sets no attribute. -/
inductive DbErrorObj where
  | classified (className : String) (message : String) (response : AwsResponse)
  | generic (wrapped : OrigError)
deriving DecidableEq, Repr

/-- The `response` attribute of the produced error, when the code sets one. -/
def DbErrorObj.responseAttr : DbErrorObj → Option AwsResponse
  | .classified _ _ r => some r
  | .generic _ => Option.none

/-- Python `BaseAuroraDataAPICursor._get_database_error` (base.py lines
183-202), parameterized by the two engine code tables (see the section
comment).  Modelled from the spec: the code→class-name tables of
`MySQLErrorCodes` / `PostgreSQLErrorCodes` come from modules missing
from the sources, so they are abstract parameters here. -/
def getDatabaseError (mysqlTable : Nat → Option String)
    (pgTable : String → Option String) (original_error : OrigError) : DbErrorObj :=
  let error_msg := errorMsgOf original_error
  match mysqlSearch error_msg with
  | some error_code =>
    match mysqlTable error_code with
    | some cls => .classified cls error_msg (responseAttrValue original_error)
    | Option.none => .generic original_error
  | Option.none =>
    match pgSearch error_msg with
    | some state =>
      match pgTable state with
      | some cls => .classified cls error_msg (responseAttrValue original_error)
      | Option.none => .generic original_error
    | Option.none => .generic original_error

/-! ## Transaction / connection manager
(`SyncAuroraDataAPIClient.commit` / `.rollback`, sync.py lines 35-49) -/

/-- A transport-level exception raised by an RPC call. -/
structure RpcError where
  message : String
deriving DecidableEq, Repr

/-- The commit-transaction RPC response. -/
structure CommitResponse where
  transactionStatus : String
deriving DecidableEq, Repr

/-- The rollback-transaction RPC response (its status is never read). -/
structure RollbackResponse where
  transactionStatus : String
deriving DecidableEq, Repr

/-- Mock RPC layer for the transaction calls: each call either raises or
returns a response. -/
structure TxnService where
  commitResult : Except RpcError CommitResponse
  rollbackResult : Except RpcError RollbackResponse

/-- Connection state relevant to transaction management. -/
structure ConnState where
  transaction_id : Option String
deriving DecidableEq, Repr

/-- What `commit()` can raise. -/
inductive CommitError where
  | rpc (e : RpcError)
  | databaseError (res : CommitResponse)
deriving DecidableEq, Repr

/-- Observed effect of one `commit()`/`rollback()` call: whether an RPC
request was issued, the connection state afterwards, what was raised. -/
structure CommitOutcome where
  requestIssued : Bool
  conn : ConnState
  raised : Option CommitError
deriving DecidableEq, Repr

structure RollbackOutcome where
  requestIssued : Bool
  conn : ConnState
  raised : Option RpcError
deriving DecidableEq, Repr

/-- Python `SyncAuroraDataAPIClient.commit` (sync.py lines 35-42): no-op
without a transaction id; otherwise issue the commit RPC — a raised
transport error propagates with the id still set; on a response the id
is cleared first and `DatabaseError` is raised unless the status is
`"Transaction Committed"`. -/
def commit (svc : TxnService) (conn : ConnState) : CommitOutcome :=
  match conn.transaction_id with
  | Option.none => ⟨false, conn, Option.none⟩
  | some _ =>
    match svc.commitResult with
    | .error e => ⟨true, conn, some (.rpc e)⟩
    | .ok res =>
      let conn' : ConnState := ⟨Option.none⟩
      if res.transactionStatus ≠ "Transaction Committed" then
        ⟨true, conn', some (.databaseError res)⟩
      else ⟨true, conn', Option.none⟩

/-- Python `SyncAuroraDataAPIClient.rollback` (sync.py lines 44-49): no-op
without a transaction id; otherwise issue the rollback RPC — a raised
transport error propagates with the id still set; on a response the id
is cleared and the reported status is ignored. -/
def rollback (svc : TxnService) (conn : ConnState) : RollbackOutcome :=
  match conn.transaction_id with
  | Option.none => ⟨false, conn, Option.none⟩
  | some _ =>
    match svc.rollbackResult with
    | .error e => ⟨true, conn, some e⟩
    | .ok _ => ⟨true, ⟨Option.none⟩, Option.none⟩

/-! ## Cursor engine: responses, cursor state, `execute`
(`SyncAuroraDataAPICursor`, sync.py; shared pieces in base.py) -/

/-- One column's reported metadata. -/
structure ColumnMeta where
  name : String
  typeName : String
deriving DecidableEq, Repr

/-- An `execute_statement` response dict, parameterized by the row
representation (`List WireValue` raw, `List HostValue` after
`_render_response` rewrites the records in place). Absent dict keys are
`none`. -/
structure ExecResponse (ρ : Type) where
  columnMetadata : Option (List ColumnMeta)
  records : Option (List ρ)
  numberOfRecordsUpdated : Option Int
  generatedFields : Option (List WireValue)

/-- Python truthiness of the response dict (`if self._current_response:`):
nonempty, i.e. some key present. -/
def ExecResponse.isTruthy (r : ExecResponse ρ) : Bool :=
  r.columnMetadata.isSome || r.records.isSome ||
    r.numberOfRecordsUpdated.isSome || r.generatedFields.isSome

/-- The paging state recorded by `_start_paginated_query` (sync.py lines
94-108): the (declare-wrapped) statement args, the mutable page size,
the generated cursor name. -/
structure PagingState where
  sql : String
  records_per_page : Nat
  pg_cursor_name : String
deriving DecidableEq, Repr

/-- The generator `iter(self)` assigned to `self._iterator`: over the
captured records on the direct path, or the page-fetch loop when a
paging state is active. -/
inductive RowGen where
  | fromRecords (rows : List (List HostValue))
  | paginated

/-- Cursor state touched by `execute` (sync.py lines 110-130). -/
structure CursorState where
  arraysize : Nat
  description : Option (List ColumnDescription)
  current_response : Option (ExecResponse (List HostValue))
  iterator : Option RowGen
  paging_state : Option PagingState

/-- The first line of `execute`:
`self._current_response, self._iterator, self._paging_state = None, None, None`.
(`self.description` is not touched.) -/
def resetStatementState (cur : CursorState) : CursorState :=
  { cur with current_response := Option.none, iterator := Option.none,
             paging_state := Option.none }

/-- Python `_set_description` (base.py lines 161-168). -/
def setDescription (md : List ColumnMeta) : List ColumnDescription :=
  md.map fun column => ⟨column.name, pgTypeMap column.typeName.toLower⟩

/-- One record of `_render_response`: each value is decoded with
`self.description[j] if self.description else None` (an empty
description list is falsy; a missing index raises `IndexError`). -/
def renderRecord (desc : Option (List ColumnDescription)) :
    Nat → List WireValue → Except RenderErr (List HostValue)
  | _, [] => .ok []
  | j, v :: vs =>
    let cd : Except RenderErr (Option ColumnDescription) :=
      match desc with
      | some l =>
        if l.isEmpty then .ok Option.none
        else
          match l[j]? with
          | some c => .ok (some c)
          | Option.none => .error .indexErr
      | Option.none => .ok Option.none
    match cd with
    | .error e => .error e
    | .ok c =>
      match renderValue v c with
      | .error e => .error e
      | .ok h =>
        match renderRecord desc (j + 1) vs with
        | .error e => .error e
        | .ok hs => .ok (h :: hs)

/-- Python `_render_response` (base.py lines 223-230): rewrite every record
through `_render_value`; other keys pass through. -/
def renderResponse (desc : Option (List ColumnDescription))
    (resp : ExecResponse (List WireValue)) :
    Except RenderErr (ExecResponse (List HostValue)) :=
  match resp.records with
  | Option.none =>
    .ok ⟨resp.columnMetadata, Option.none, resp.numberOfRecordsUpdated, resp.generatedFields⟩
  | some recs =>
    match recs.mapM (renderRecord desc 0) with
    | .error e => .error e
    | .ok rendered =>
      .ok ⟨resp.columnMetadata, some rendered, resp.numberOfRecordsUpdated, resp.generatedFields⟩

/-- Outcome of one `execute_statement` RPC against the mock service. -/
inductive ExecOutcome where
  | ok (resp : ExecResponse (List WireValue))
  | badRequest (e : OrigError)
  | dbErrorExc (e : OrigError)
  | otherError (msg : String)

/-- What an `execute` call can raise. -/
inductive RaisedError where
  | db (e : DbErrorObj)
  | raw (e : OrigError)
  | other (msg : String)
  | render (e : RenderErr)

/-- Observed effect of one `execute` call: cursor state afterwards, the
SQL statements issued (in order), and what was raised, if anything. -/
structure ExecuteResult where
  cur : CursorState
  issued : List String
  raised : Option RaisedError

/-- The `DECLARE <name> SCROLL CURSOR FOR <sql>` statement built by
`_start_paginated_query` (sync.py lines 101-102). -/
def declareSql (pg_cursor_name sql : String) : String :=
  "DECLARE " ++ pg_cursor_name ++ " SCROLL CURSOR FOR " ++ sql

/-- Python `records_per_page or self.arraysize` (Python `or`: `None` and `0`
both fall back). -/
def pageSizeOr (records_per_page : Option Nat) (arraysize : Nat) : Nat :=
  match records_per_page with
  | Option.none => arraysize
  | some n => if n = 0 then arraysize else n

/-- The substrings `execute` dispatches on (sync.py lines 124-126). -/
def paginateMsg : String := "Please paginate your query"
def oversizeMsg : String := "Database returned more than the allowed response size limit"

/-- Python `iter(self)` at the end of `execute`: a paging state selects the
paginated generator, else the captured records are walked
(`self._current_response.get("records", [])`). -/
def mkIterator (cur : CursorState) : RowGen :=
  match cur.paging_state with
  | some _ => .paginated
  | Option.none =>
    .fromRecords ((cur.current_response.map fun r => r.records.getD []).getD [])

/-- Python `SyncAuroraDataAPICursor.execute` (sync.py lines 110-130) together
with `_start_paginated_query` (lines 94-108). `svc` maps an SQL text to
the mock service's outcome; `pg_cursor_name` stands for the generated
timestamp+random cursor name. Statement parameters do not influence the
control flow modelled here and are omitted. -/
def execute (svc : String → ExecOutcome) (mysqlTable : Nat → Option String)
    (pgTable : String → Option String) (pg_cursor_name : String)
    (cur : CursorState) (operation : String) : ExecuteResult :=
  let cur1 := resetStatementState cur
  let startPaginated (records_per_page : Option Nat) : ExecuteResult :=
    let dsql := declareSql pg_cursor_name operation
    match svc dsql with
    | .ok _ =>
      let ps : PagingState :=
        ⟨dsql, pageSizeOr records_per_page cur1.arraysize, pg_cursor_name⟩
      let cur2 := { cur1 with paging_state := some ps }
      ⟨{ cur2 with iterator := some (mkIterator cur2) }, [operation, dsql], Option.none⟩
    | .badRequest e => ⟨cur1, [operation, dsql], some (.raw e)⟩
    | .dbErrorExc e => ⟨cur1, [operation, dsql], some (.raw e)⟩
    | .otherError m => ⟨cur1, [operation, dsql], some (.other m)⟩
  let handleCaught (e : OrigError) : ExecuteResult :=
    if strContains (errorMsgOf e) paginateMsg then
      startPaginated Option.none
    else if strContains (errorMsgOf e) oversizeMsg then
      startPaginated (some (max 1 (cur1.arraysize / 2)))
    else
      ⟨cur1, [operation], some (.db (getDatabaseError mysqlTable pgTable e))⟩
  match svc operation with
  | .ok res =>
    let cur2 :=
      match res.columnMetadata with
      | some md => { cur1 with description := some (setDescription md) }
      | Option.none => cur1
    match renderResponse cur2.description res with
    | .error e => ⟨cur2, [operation], some (.render e)⟩
    | .ok rendered =>
      let cur3 := { cur2 with current_response := some rendered }
      ⟨{ cur3 with iterator := some (mkIterator cur3) }, [operation], Option.none⟩
  | .badRequest e => handleCaught e
  | .dbErrorExc e => handleCaught e
  | .otherError m => ⟨cur1, [operation], some (.other m)⟩

/-- Python `rowcount` (base.py lines 204-211): number of records in the
captured response when a `records` key is present, else the
`numberOfRecordsUpdated` count, else `-1`; `None` and the empty (falsy)
response dict also give `-1`. -/
def rowcount (cur : CursorState) : Int :=
  match cur.current_response with
  | some r =>
    if r.isTruthy then
      match r.records with
      | some recs => recs.length
      | Option.none =>
        match r.numberOfRecordsUpdated with
        | some n => n
        | Option.none => -1
    else -1
  | Option.none => -1

/-! ## Cursor engine: `scroll` and the paginated row iterator
(`SyncAuroraDataAPICursor.scroll` / `__iter__`, sync.py lines 143-182) -/

/-- Python `mode.upper()` (character-wise uppercase; identical to
Unicode uppercasing on the ASCII mode names used here). -/
def strUpper (s : String) : String := ⟨s.data.map Char.toUpper⟩

/-- The statement text `scroll` composes:
`"MOVE {mode} {value} FROM {pg_cursor_name}".format(mode=mode.upper(), ...)`. -/
def scrollStmt (value : Int) (mode : String) (pg_cursor_name : String) : String :=
  "MOVE " ++ strUpper mode ++ " " ++ toString value ++ " FROM " ++ pg_cursor_name

/-- The `FETCH <n> FROM <name>` statement of the fetch loop (line 160). -/
def fetchSql (records_per_page : Nat) (pg_cursor_name : String) : String :=
  "FETCH " ++ toString records_per_page ++ " FROM " ++ pg_cursor_name

/-- Mock of the server-side named cursor: the result rows (already in
rendered form — `_render_response` maps pages row by row and is modelled
separately), a per-row response-size cost, and the service's response
size ceiling. A `FETCH n` returns the next `min n remaining` rows and
advances the position; the service raises the oversize `BadRequest`
exactly when the page's total size exceeds the ceiling (with the
server-side cursor left advanced, which is what the rewind in the code
assumes); `MOVE RELATIVE -n` moves the position back by `n`, stopping at
the start. -/
structure FetchService (ρ : Type) where
  rows : List ρ
  rowSize : ρ → Nat
  sizeLimit : Nat

/-- The BadRequest exception the mock service raises on an oversize
response (`str(e)` and `response.Error.Message` both carry the
message). -/
def oversizeError : OrigError := ⟨some ⟨some ⟨some oversizeMsg⟩⟩⟩

/-- Result of running the paginated iterator to completion. -/
inductive FetchOut (ρ : Type) where
  | ok (out : List ρ)
  | dbError (e : DbErrorObj)
  | outOfFuel
deriving DecidableEq, Repr

/-- A run of the fetch loop: the SQL statements issued, the outcome, and
whether some oversize failure happened on a short page (fewer than
`records_per_page` rows remaining) — the one situation in which the
fixed `-records_per_page` rewind overshoots the page start. -/
structure FetchRun (ρ : Type) where
  log : List String
  result : FetchOut ρ
  shortOverflow : Bool
deriving DecidableEq, Repr

/-- The fetch loop of `__iter__` (sync.py lines 153-179) for an active
paging state: issue `FETCH <records_per_page>`; on the oversize
BadRequest with page size > 1, call `self.scroll(-records_per_page)`
(which issues `MOVE RELATIVE -records_per_page`), halve
`records_per_page` (`//= 2`), and continue; on the oversize signal at
page size 1 (or any other BadRequest, not modelled by this mock), raise
`self._get_database_error(e)`; an empty page breaks; otherwise the page
is yielded and the loop continues. `fuel` bounds the recursion depth;
every terminating run is reached with enough fuel. -/
def fetchLoop (svc : FetchService ρ) (mysqlTable : Nat → Option String)
    (pgTable : String → Option String) (pg_cursor_name : String) :
    Nat → Nat → Nat → FetchRun ρ
  | 0, _, _ => ⟨[], .outOfFuel, false⟩
  | fuel + 1, pos, records_per_page =>
    let fsql := fetchSql records_per_page pg_cursor_name
    let page := (svc.rows.drop pos).take records_per_page
    let posAfter := pos + page.length
    if (page.map svc.rowSize).sum > svc.sizeLimit then
      if records_per_page > 1 then
        let msql := scrollStmt (-(records_per_page : Int)) "relative" pg_cursor_name
        let rest := fetchLoop svc mysqlTable pgTable pg_cursor_name fuel
          (posAfter - records_per_page) (records_per_page / 2)
        ⟨fsql :: msql :: rest.log, rest.result,
         decide (page.length < records_per_page) || rest.shortOverflow⟩
      else
        ⟨[fsql], .dbError (getDatabaseError mysqlTable pgTable oversizeError), false⟩
    else
      if page.isEmpty then ⟨[fsql], .ok [], false⟩
      else
        let rest := fetchLoop svc mysqlTable pgTable pg_cursor_name fuel posAfter
          records_per_page
        ⟨fsql :: rest.log,
         (match rest.result with
          | .ok out => .ok (page ++ out)
          | r => r),
         rest.shortOverflow⟩

/-- Fuel that always suffices for `fetchLoop` (each halving step costs
one, each successful page costs one, plus the terminating fetch). -/
def fetchFuel (svc : FetchService ρ) (records_per_page : Nat) : Nat :=
  (records_per_page + 1) * (svc.rows.length + 2)

/-! ## Cursor engine: row-consumption interfaces
(`fetchone` / `fetchmany` / `fetchall` / iteration, sync.py lines 153-203)

The generator `self._iterator` is deterministic, so it is modelled by
the list of rows it will yield; each consumption style below mirrors the
corresponding method's loop over that list. -/

/-- Python `fetchone`: `next(self._iterator)`, with `StopIteration` mapped to
`None`; returns the drawn row and the generator's remaining rows. -/
def fetchonePair : List ρ → Option ρ × List ρ
  | [] => (Option.none, [])
  | r :: rest => (some r, rest)

/-- Python `fetchmany(size)`: up to `size` repeated `fetchone` draws, stopping
early at `None` (sync.py lines 190-200). -/
def fetchmanyPair : Nat → List ρ → List ρ × List ρ
  | 0, l => ([], l)
  | _ + 1, [] => ([], [])
  | size + 1, r :: rest =>
    let (results, rem) := fetchmanyPair size rest
    (r :: results, rem)

/-- Python `fetchall`: `list(self._iterator)` — drain everything. -/
def fetchallList : List ρ → List ρ
  | [] => []
  | r :: rest => r :: fetchallList rest

/-- Direct iteration (`for record in cursor`): the generator's yields in
order. -/
def iterationList : List ρ → List ρ
  | [] => []
  | r :: rest => r :: iterationList rest

/-- Repeated `fetchone` until it returns `None`, collecting the rows. -/
def drainFetchone : List ρ → List ρ
  | [] => []
  | r :: rest => r :: drainFetchone rest

/-- Repeated `fetchmany(n)` until it returns an empty list, concatenating
the batches. -/
def drainFetchmany (n : Nat) (l : List ρ) : List ρ :=
  if h : (fetchmanyPair n l).1.isEmpty then []
  else (fetchmanyPair n l).1 ++ drainFetchmany n (fetchmanyPair n l).2
termination_by l.length
decreasing_by
  have key : ∀ (m : Nat) (xs : List ρ), fetchmanyPair m xs = (xs.take m, xs.drop m) := by
    intro m
    induction m with
    | zero => intro xs; simp [fetchmanyPair]
    | succ k ih => intro xs; cases xs <;> simp [fetchmanyPair, ih]
  simp only [key, List.isEmpty_eq_true] at h ⊢
  have hn : n ≠ 0 := by rintro rfl; simp at h
  have hl : l ≠ [] := by rintro rfl; simp at h
  simp only [List.length_drop]
  exact Nat.sub_lt (List.length_pos.mpr hl) (Nat.pos_of_ne_zero hn)

/-- The stream of rows an executed cursor will produce: the fetch-loop
output under an active paging state, else the captured records. -/
def cursorRowStream (svc : FetchService (List HostValue))
    (mysqlTable : Nat → Option String) (pgTable : String → Option String)
    (cur : CursorState) : FetchOut (List HostValue) :=
  match cur.paging_state with
  | some ps =>
    (fetchLoop svc mysqlTable pgTable ps.pg_cursor_name
      (fetchFuel svc ps.records_per_page) 0 ps.records_per_page).result
  | Option.none =>
    .ok ((cur.current_response.map fun r => r.records.getD []).getD [])

/-! # Theorems -/

/-- C9: `commit()` with no active transaction is a no-op that issues no
request and does not raise; with an active transaction (and the service
responding) it issues the commit request, clears the transaction id in
both status cases, and raises a database error exactly when the service
does not report `"Transaction Committed"`. -/
theorem C9_commit_contract (svc : TxnService) (conn : ConnState) :
    (conn.transaction_id = Option.none → commit svc conn = ⟨false, conn, Option.none⟩)
    ∧ (∀ t res, conn.transaction_id = some t → svc.commitResult = .ok res →
        (commit svc conn).requestIssued = true
        ∧ (commit svc conn).conn.transaction_id = Option.none
        ∧ ((commit svc conn).raised ≠ Option.none ↔
            res.transactionStatus ≠ "Transaction Committed")
        ∧ (∀ err, (commit svc conn).raised = some err → err = .databaseError res)) := by
  constructor
  · intro h
    simp [commit, h]
  · intro t res ht hres
    simp only [commit, ht, hres]
    by_cases hs : res.transactionStatus = "Transaction Committed" <;>
      simp [hs]

/-- Witness for C9: a committed transaction and a no-transaction no-op,
at concrete inputs. -/
theorem C9_commit_contract_witness :
    ((commit ⟨.ok ⟨"Transaction Committed"⟩, .ok ⟨"s"⟩⟩ ⟨some "txn1"⟩).requestIssued = true
     ∧ (commit ⟨.ok ⟨"Transaction Committed"⟩, .ok ⟨"s"⟩⟩ ⟨some "txn1"⟩).conn.transaction_id
        = Option.none
     ∧ ((commit ⟨.ok ⟨"Transaction Committed"⟩, .ok ⟨"s"⟩⟩ ⟨some "txn1"⟩).raised ≠ Option.none ↔
         ("Transaction Committed" : String) ≠ "Transaction Committed")
     ∧ (∀ err, (commit ⟨.ok ⟨"Transaction Committed"⟩, .ok ⟨"s"⟩⟩ ⟨some "txn1"⟩).raised = some err →
         err = .databaseError ⟨"Transaction Committed"⟩))
    ∧ commit ⟨.ok ⟨"Transaction Committed"⟩, .ok ⟨"s"⟩⟩ ⟨Option.none⟩ =
        ⟨false, ⟨Option.none⟩, Option.none⟩ :=
  ⟨(C9_commit_contract ⟨.ok ⟨"Transaction Committed"⟩, .ok ⟨"s"⟩⟩ ⟨some "txn1"⟩).2
      "txn1" ⟨"Transaction Committed"⟩ rfl rfl,
   (C9_commit_contract ⟨.ok ⟨"Transaction Committed"⟩, .ok ⟨"s"⟩⟩ ⟨Option.none⟩).1 rfl⟩

/-- C8 counterexample: with an active transaction, a rollback request
that raises a transport error propagates that failure to the caller (and
leaves the transaction id set) — contradicting the claim that a failure
of the rollback request is not propagated. -/
theorem C8_counterexample :
    (rollback ⟨.ok ⟨"s"⟩, .error ⟨"connection reset"⟩⟩ ⟨some "txn1"⟩).raised =
      some ⟨"connection reset"⟩
    ∧ (rollback ⟨.ok ⟨"s"⟩, .error ⟨"connection reset"⟩⟩ ⟨some "txn1"⟩).conn.transaction_id =
      some "txn1" := by
  exact ⟨rfl, rfl⟩

/-- C8 (amended): `rollback()` is a no-op when no transaction is active;
when active it issues the rollback request and, when the request
returns, clears the transaction id while ignoring the reported status
(status-level failures are not propagated); an exception raised by the
rollback request itself propagates to the caller and leaves the
transaction id set. -/
theorem C8_rollback_contract (svc : TxnService) (conn : ConnState) :
    (conn.transaction_id = Option.none → rollback svc conn = ⟨false, conn, Option.none⟩)
    ∧ (∀ t res, conn.transaction_id = some t → svc.rollbackResult = .ok res →
        rollback svc conn = ⟨true, ⟨Option.none⟩, Option.none⟩)
    ∧ (∀ t err, conn.transaction_id = some t → svc.rollbackResult = .error err →
        rollback svc conn = ⟨true, conn, some err⟩) := by
  refine ⟨fun h => by simp [rollback, h], fun t res ht hres => ?_, fun t err ht herr => ?_⟩
  · simp [rollback, ht, hres]
  · simp [rollback, ht, herr]

/-- Witness for C8's amended contract: a rollback whose status report is
not a success is still not propagated, and the id is cleared. -/
theorem C8_rollback_contract_witness :
    rollback ⟨.ok ⟨"s"⟩, .ok ⟨"Rollback Failed"⟩⟩ ⟨some "txn2"⟩ =
      ⟨true, ⟨Option.none⟩, Option.none⟩ :=
  (C8_rollback_contract ⟨.ok ⟨"s"⟩, .ok ⟨"Rollback Failed"⟩⟩ ⟨some "txn2"⟩).2.1
    "txn2" ⟨"Rollback Failed"⟩ rfl rfl

/-- C5: `rowcount` is the number of records in a captured response with
a `records` key, else the service-reported affected-row count when
present, else the unknown sentinel `-1`; and any `execute` that ends
with an active paging state reports `-1`. -/
theorem C5_rowcount_contract (cur : CursorState) (r : ExecResponse (List HostValue)) :
    (∀ recs, cur.current_response = some r → r.records = some recs →
      rowcount cur = recs.length)
    ∧ (∀ n, cur.current_response = some r → r.records = Option.none →
        r.numberOfRecordsUpdated = some n → rowcount cur = n)
    ∧ (cur.current_response = Option.none → rowcount cur = -1)
    ∧ (cur.current_response = some r → r.records = Option.none →
        r.numberOfRecordsUpdated = Option.none → rowcount cur = -1)
    ∧ (∀ svc mysqlTable pgTable pg_cursor_name operation,
        (execute svc mysqlTable pgTable pg_cursor_name cur operation).cur.paging_state.isSome →
        rowcount (execute svc mysqlTable pgTable pg_cursor_name cur operation).cur = -1) := by
  refine ⟨fun recs hc hr => ?_, fun n hc hr hn => ?_, fun hc => ?_, fun hc hr hn => ?_,
    fun svc T1 T2 cname op hps => ?_⟩
  · simp [rowcount, hc, ExecResponse.isTruthy, hr]
  · simp [rowcount, hc, ExecResponse.isTruthy, hr, hn]
  · simp [rowcount, hc]
  · by_cases htr : r.isTruthy <;> simp [rowcount, hc, htr, hr, hn]
  · -- only the paginated branch of `execute` can leave a paging state,
    -- and it leaves `current_response` cleared.
    revert hps
    unfold execute
    cases hout : svc op <;> simp only [hout] <;> (repeat' split) <;>
      intro hps <;> simp_all [resetStatementState, rowcount, mkIterator]

/-- Witness for C5: a captured two-row response reports 2; a cursor with
no captured response reports the unknown sentinel. -/
theorem C5_rowcount_contract_witness :
    rowcount ⟨1000, Option.none,
        some ⟨Option.none, some [[HostValue.int 1], [HostValue.int 2]], Option.none, Option.none⟩,
        Option.none, Option.none⟩ =
      ([[HostValue.int 1], [HostValue.int 2]] : List (List HostValue)).length
    ∧ rowcount ⟨1000, Option.none, Option.none, Option.none, Option.none⟩ = -1 :=
  ⟨(C5_rowcount_contract ⟨1000, Option.none,
        some ⟨Option.none, some [[HostValue.int 1], [HostValue.int 2]], Option.none, Option.none⟩,
        Option.none, Option.none⟩
      ⟨Option.none, some [[HostValue.int 1], [HostValue.int 2]], Option.none, Option.none⟩).1
      [[HostValue.int 1], [HostValue.int 2]] rfl rfl,
   (C5_rowcount_contract ⟨1000, Option.none, Option.none, Option.none, Option.none⟩
      ⟨Option.none, Option.none, Option.none, Option.none⟩).2.2.1 rfl⟩

/-- C2: when the direct attempt fails with the needs-pagination message,
`execute` does not re-issue the original statement: it issues exactly
one further statement, the `DECLARE ... SCROLL CURSOR FOR` declaration,
and records a paging state with page size equal to `arraysize`; when the
failure instead carries the oversize-response message, the same
declare-cursor route is taken with an initial page size of
`max 1 (arraysize / 2)`. -/
theorem C2_execute_pagination_dispatch (svc : String → ExecOutcome)
    (mysqlTable : Nat → Option String) (pgTable : String → Option String)
    (pg_cursor_name : String) (cur : CursorState) (operation : String)
    (e : OrigError) (resp : ExecResponse (List WireValue))
    (hcaught : svc operation = .badRequest e ∨ svc operation = .dbErrorExc e)
    (hdecl : svc (declareSql pg_cursor_name operation) = .ok resp) :
    (strContains (errorMsgOf e) paginateMsg = true →
      (execute svc mysqlTable pgTable pg_cursor_name cur operation).raised = Option.none
      ∧ (execute svc mysqlTable pgTable pg_cursor_name cur operation).issued =
          [operation, declareSql pg_cursor_name operation]
      ∧ (execute svc mysqlTable pgTable pg_cursor_name cur operation).cur.paging_state =
          some ⟨declareSql pg_cursor_name operation, cur.arraysize, pg_cursor_name⟩)
    ∧ (strContains (errorMsgOf e) paginateMsg = false →
       strContains (errorMsgOf e) oversizeMsg = true →
      (execute svc mysqlTable pgTable pg_cursor_name cur operation).raised = Option.none
      ∧ (execute svc mysqlTable pgTable pg_cursor_name cur operation).issued =
          [operation, declareSql pg_cursor_name operation]
      ∧ (execute svc mysqlTable pgTable pg_cursor_name cur operation).cur.paging_state =
          some ⟨declareSql pg_cursor_name operation, max 1 (cur.arraysize / 2),
                pg_cursor_name⟩) := by
  have hmax : ¬ (max 1 (cur.arraysize / 2) = 0) := by omega
  constructor
  · intro hpag
    rcases hcaught with h | h <;>
      simp [execute, h, hpag, hdecl, resetStatementState, pageSizeOr, mkIterator]
  · intro hpag hover
    rcases hcaught with h | h <;>
      simp [execute, h, hpag, hover, hdecl, resetStatementState, pageSizeOr, mkIterator, hmax]

/-- Witness for C2: both dispatch paths at concrete inputs (a service
that fails the direct statement with each message and accepts the
declaration). -/
theorem C2_execute_pagination_dispatch_witness :
    (let pagErr : OrigError := ⟨some ⟨some ⟨some "Please paginate your query"⟩⟩⟩
     let svc : String → ExecOutcome := fun s =>
       if s = "SELECT * FROM t" then .badRequest pagErr
       else .ok ⟨Option.none, Option.none, Option.none, Option.none⟩
     let cur : CursorState := ⟨1000, Option.none, Option.none, Option.none, Option.none⟩
     (execute svc (fun _ => Option.none) (fun _ => Option.none) "cn" cur
        "SELECT * FROM t").raised = Option.none
     ∧ (execute svc (fun _ => Option.none) (fun _ => Option.none) "cn" cur
          "SELECT * FROM t").issued =
         ["SELECT * FROM t", declareSql "cn" "SELECT * FROM t"]
     ∧ (execute svc (fun _ => Option.none) (fun _ => Option.none) "cn" cur
          "SELECT * FROM t").cur.paging_state =
         some ⟨declareSql "cn" "SELECT * FROM t", 1000, "cn"⟩)
    ∧ (let ovErr : OrigError :=
         ⟨some ⟨some ⟨some "Database returned more than the allowed response size limit"⟩⟩⟩
       let svc : String → ExecOutcome := fun s =>
         if s = "SELECT * FROM t" then .badRequest ovErr
         else .ok ⟨Option.none, Option.none, Option.none, Option.none⟩
       let cur : CursorState := ⟨1000, Option.none, Option.none, Option.none, Option.none⟩
       (execute svc (fun _ => Option.none) (fun _ => Option.none) "cn" cur
          "SELECT * FROM t").raised = Option.none
       ∧ (execute svc (fun _ => Option.none) (fun _ => Option.none) "cn" cur
            "SELECT * FROM t").issued =
           ["SELECT * FROM t", declareSql "cn" "SELECT * FROM t"]
       ∧ (execute svc (fun _ => Option.none) (fun _ => Option.none) "cn" cur
            "SELECT * FROM t").cur.paging_state =
           some ⟨declareSql "cn" "SELECT * FROM t", max 1 (1000 / 2), "cn"⟩) :=
  ⟨(C2_execute_pagination_dispatch _ (fun _ => Option.none) (fun _ => Option.none) "cn"
      ⟨1000, Option.none, Option.none, Option.none, Option.none⟩ "SELECT * FROM t"
      ⟨some ⟨some ⟨some "Please paginate your query"⟩⟩⟩
      ⟨Option.none, Option.none, Option.none, Option.none⟩
      (Or.inl rfl) rfl).1 (by decide),
   (C2_execute_pagination_dispatch _ (fun _ => Option.none) (fun _ => Option.none) "cn"
      ⟨1000, Option.none, Option.none, Option.none, Option.none⟩ "SELECT * FROM t"
      ⟨some ⟨some ⟨some "Database returned more than the allowed response size limit"⟩⟩⟩
      ⟨Option.none, Option.none, Option.none, Option.none⟩
      (Or.inl rfl) rfl).2 (by decide) (by decide)⟩

/-- C10 counterexample: `execute` does not clear the column Description.
A cursor whose previous statement left a Description, executing a new
statement whose response carries no column metadata, still holds the old
Description afterwards — the claim says all four pieces of per-statement
state (including the Description) are cleared. -/
theorem C10_counterexample :
    (execute (fun _ => .ok ⟨Option.none, Option.none, some 1, Option.none⟩)
        (fun _ => Option.none) (fun _ => Option.none) "cn"
        ⟨1000, some [⟨"a", TypeCode.int⟩], Option.none, Option.none, Option.none⟩
        "DELETE FROM t").cur.description = some [⟨"a", TypeCode.int⟩] := by
  rfl

/-- C10 (amended): `execute` first resets the captured response, the row
iterator and the paging state (leaving the Description untouched), and
when the new response carries no column metadata the previous
statement's Description survives and is the one used to render the new
statement's rows. -/
theorem C10_execute_reset (cur : CursorState) :
    (resetStatementState cur).current_response = Option.none
    ∧ (resetStatementState cur).iterator = Option.none
    ∧ (resetStatementState cur).paging_state = Option.none
    ∧ (resetStatementState cur).description = cur.description
    ∧ (∀ svc mysqlTable pgTable pg_cursor_name operation
         (resp : ExecResponse (List WireValue)),
        svc operation = .ok resp → resp.columnMetadata = Option.none →
        (execute svc mysqlTable pgTable pg_cursor_name cur operation).cur.description =
          cur.description
        ∧ ∀ rendered, renderResponse cur.description resp = .ok rendered →
            (execute svc mysqlTable pgTable pg_cursor_name cur operation).cur.current_response =
              some rendered) := by
  refine ⟨rfl, rfl, rfl, rfl, fun svc T1 T2 cname op resp hok hmd => ?_⟩
  constructor
  · simp only [execute, hok, hmd, resetStatementState]
    split <;> rfl
  · intro rendered hrend
    simp only [execute, hok, hmd, resetStatementState]
    have : renderResponse cur.description resp = .ok rendered := hrend
    split <;> simp_all

/-- Witness for C10's amended contract, at a concrete cursor whose
previous Description decodes the new statement's single text column. -/
theorem C10_execute_reset_witness :
    (execute (fun _ => .ok ⟨Option.none, some [[WireValue.stringValue "x"]], Option.none,
          Option.none⟩)
        (fun _ => Option.none) (fun _ => Option.none) "cn"
        ⟨1000, some [⟨"a", TypeCode.str⟩], Option.none, Option.none, Option.none⟩
        "SELECT a FROM t").cur.description = some [⟨"a", TypeCode.str⟩]
    ∧ (execute (fun _ => .ok ⟨Option.none, some [[WireValue.stringValue "x"]], Option.none,
          Option.none⟩)
        (fun _ => Option.none) (fun _ => Option.none) "cn"
        ⟨1000, some [⟨"a", TypeCode.str⟩], Option.none, Option.none, Option.none⟩
        "SELECT a FROM t").cur.current_response =
      some ⟨Option.none, some [[HostValue.str "x"]], Option.none, Option.none⟩ := by
  have h := (C10_execute_reset
      ⟨1000, some [⟨"a", TypeCode.str⟩], Option.none, Option.none, Option.none⟩).2.2.2.2
      (fun _ => .ok ⟨Option.none, some [[WireValue.stringValue "x"]], Option.none, Option.none⟩)
      (fun _ => Option.none) (fun _ => Option.none) "cn" "SELECT a FROM t"
      ⟨Option.none, some [[WireValue.stringValue "x"]], Option.none, Option.none⟩ rfl rfl
  exact ⟨h.1, h.2 ⟨Option.none, some [[HostValue.str "x"]], Option.none, Option.none⟩ rfl⟩

/-- C6: a message matching the MySQL pattern resolves through the MySQL
code table to that code's registered class; otherwise a message matching
the PostgreSQL pattern resolves through the PostgreSQL state table; when
neither pattern matches, the generic database error wrapping the
original error is returned. (The code tables come from modules outside
the sources and are abstract parameters.) -/
theorem C6_classifier_dispatch (mysqlTable : Nat → Option String)
    (pgTable : String → Option String) (e : OrigError) :
    (∀ code cls, mysqlSearch (errorMsgOf e) = some code → mysqlTable code = some cls →
      getDatabaseError mysqlTable pgTable e =
        .classified cls (errorMsgOf e) (responseAttrValue e))
    ∧ (∀ state cls, mysqlSearch (errorMsgOf e) = Option.none →
        pgSearch (errorMsgOf e) = some state → pgTable state = some cls →
        getDatabaseError mysqlTable pgTable e =
          .classified cls (errorMsgOf e) (responseAttrValue e))
    ∧ (mysqlSearch (errorMsgOf e) = Option.none → pgSearch (errorMsgOf e) = Option.none →
        getDatabaseError mysqlTable pgTable e = .generic e) := by
  refine ⟨fun code cls hm ht => ?_, fun state cls hm hp ht => ?_, fun hm hp => ?_⟩
  · simp [getDatabaseError, hm, ht]
  · simp [getDatabaseError, hm, hp, ht]
  · simp [getDatabaseError, hm, hp]

/-- Witness for C6: the spec's two example messages (MySQL code 1064,
PostgreSQL state 42P01) and a neither-pattern message, against tables
registering exactly those codes. -/
theorem C6_classifier_dispatch_witness :
    (getDatabaseError (fun c => if c = 1064 then some "ER_PARSE_ERROR" else Option.none)
        (fun _ => Option.none)
        ⟨some ⟨some ⟨some "You have an error in your SQL syntax; Error code: 1064; SQLState: 42000"⟩⟩⟩ =
      .classified "ER_PARSE_ERROR"
        "You have an error in your SQL syntax; Error code: 1064; SQLState: 42000"
        ⟨some ⟨some "You have an error in your SQL syntax; Error code: 1064; SQLState: 42000"⟩⟩)
    ∧ (getDatabaseError (fun _ => Option.none)
        (fun s => if s = "42P01" then some "UndefinedTable" else Option.none)
        ⟨some ⟨some ⟨some "ERROR: relation does not exist; Position: 15; SQLState: 42P01"⟩⟩⟩ =
      .classified "UndefinedTable"
        "ERROR: relation does not exist; Position: 15; SQLState: 42P01"
        ⟨some ⟨some "ERROR: relation does not exist; Position: 15; SQLState: 42P01"⟩⟩)
    ∧ (getDatabaseError (fun _ => Option.none) (fun _ => Option.none)
        ⟨some ⟨some ⟨some "some unstructured failure"⟩⟩⟩ =
      .generic ⟨some ⟨some ⟨some "some unstructured failure"⟩⟩⟩) :=
  ⟨(C6_classifier_dispatch _ _ _).1 1064 "ER_PARSE_ERROR" (by decide) (by decide),
   (C6_classifier_dispatch _ _ _).2.1 "42P01" "UndefinedTable" (by decide) (by decide)
     (by decide),
   (C6_classifier_dispatch _ _ _).2.2 (by decide) (by decide)⟩

/-- C7 counterexample: a message matching neither engine pattern is
classified as the generic fallback `DatabaseError(original_error)`,
which does not set the `response` attribute — contradicting the claim
that every classified error (including the fallback) carries the
original response payload as an attribute. -/
theorem C7_counterexample :
    getDatabaseError (fun _ => Option.none) (fun _ => Option.none)
        ⟨some ⟨some ⟨some "boom"⟩⟩⟩ =
      .generic ⟨some ⟨some ⟨some "boom"⟩⟩⟩
    ∧ (getDatabaseError (fun _ => Option.none) (fun _ => Option.none)
        ⟨some ⟨some ⟨some "boom"⟩⟩⟩).responseAttr = Option.none := by
  decide

/-- C7 (amended): typed engine errors carry the original response
payload on their `response` attribute; the generic fallback sets no such
attribute but wraps the original error object itself (through which the
payload stays reachable). -/
theorem C7_response_attribute (mysqlTable : Nat → Option String)
    (pgTable : String → Option String) (e : OrigError) :
    (∀ code cls, mysqlSearch (errorMsgOf e) = some code → mysqlTable code = some cls →
      (getDatabaseError mysqlTable pgTable e).responseAttr = some (responseAttrValue e))
    ∧ (∀ state cls, mysqlSearch (errorMsgOf e) = Option.none →
        pgSearch (errorMsgOf e) = some state → pgTable state = some cls →
        (getDatabaseError mysqlTable pgTable e).responseAttr = some (responseAttrValue e))
    ∧ (∀ wrapped, getDatabaseError mysqlTable pgTable e = .generic wrapped →
        wrapped = e) := by
  refine ⟨fun code cls hm ht => ?_, fun state cls hm hp ht => ?_, fun wrapped hw => ?_⟩
  · simp [getDatabaseError, hm, ht, DbErrorObj.responseAttr]
  · simp [getDatabaseError, hm, hp, ht, DbErrorObj.responseAttr]
  · unfold getDatabaseError at hw
    rcases hm : mysqlSearch (errorMsgOf e) with _ | code <;> simp only [hm] at hw
    · rcases hp : pgSearch (errorMsgOf e) with _ | st <;> simp only [hp] at hw
      · simp only [DbErrorObj.generic.injEq] at hw
        exact hw.symm
      · rcases ht : pgTable st with _ | cls <;> simp only [ht] at hw
        · simp only [DbErrorObj.generic.injEq] at hw
          exact hw.symm
        · exact absurd hw (by simp)
    · rcases ht : mysqlTable code with _ | cls <;> simp only [ht] at hw
      · simp only [DbErrorObj.generic.injEq] at hw
        exact hw.symm
      · exact absurd hw (by simp)

/-- Witness for C7's amended contract: a typed MySQL-classified error
carries the payload on its `response` attribute. -/
theorem C7_response_attribute_witness :
    (getDatabaseError (fun c => if c = 1146 then some "ER_NO_SUCH_TABLE" else Option.none)
        (fun _ => Option.none)
        ⟨some ⟨some ⟨some "Table gone. Error code: 1146; SQLState: 42"⟩⟩⟩).responseAttr =
      some ⟨some ⟨some "Table gone. Error code: 1146; SQLState: 42"⟩⟩ :=
  (C7_response_attribute _ _ _).1 1146 "ER_NO_SUCH_TABLE" (by decide) (by decide)

/-! ### Row-consumption lemmas (towards C4) -/

theorem fetchmanyPair_take_drop (n : Nat) (l : List ρ) :
    fetchmanyPair n l = (l.take n, l.drop n) := by
  induction n generalizing l with
  | zero => simp [fetchmanyPair]
  | succ n ih => cases l <;> simp [fetchmanyPair, ih]

theorem iterationList_eq (l : List ρ) : iterationList l = l := by
  induction l with
  | nil => rfl
  | cons r rest ih => simp [iterationList, ih]

theorem fetchallList_eq (l : List ρ) : fetchallList l = l := by
  induction l with
  | nil => rfl
  | cons r rest ih => simp [fetchallList, ih]

theorem drainFetchone_eq (l : List ρ) : drainFetchone l = l := by
  induction l with
  | nil => rfl
  | cons r rest ih => simp [drainFetchone, ih]

theorem drainFetchmany_eq (n : Nat) (hn : 1 ≤ n) : ∀ l : List ρ, drainFetchmany n l = l := by
  have H : ∀ len : Nat, ∀ l : List ρ, l.length ≤ len → drainFetchmany n l = l := by
    intro len
    induction len with
    | zero =>
      intro l hl
      have h0 : l = [] := List.length_eq_zero.mp (Nat.le_zero.mp hl)
      subst h0
      rw [drainFetchmany]
      simp [fetchmanyPair_take_drop]
    | succ len ih =>
      intro l hl
      rw [drainFetchmany]
      by_cases hb : ((fetchmanyPair n l).1.isEmpty)
      · rw [fetchmanyPair_take_drop] at hb
        simp only [List.isEmpty_eq_true, List.take_eq_nil_iff] at hb
        rcases hb with h0 | h0
        · omega
        · subst h0
          simp [fetchmanyPair_take_drop]
      · simp only [hb, dite_false]
        rw [fetchmanyPair_take_drop] at hb ⊢
        simp only [List.isEmpty_eq_true, List.take_eq_nil_iff, not_or] at hb
        have hlen : (l.drop n).length ≤ len := by
          have hne : l ≠ [] := hb.2
          have hpos : 0 < l.length := List.length_pos.mpr hne
          simp only [List.length_drop]
          omega
        rw [ih (l.drop n) hlen]
        exact List.take_append_drop n l
  exact fun l => H l.length l le_rfl

/-- C4: the rows of an executed query are the same sequence, in the same
order and count, whether consumed by direct iteration, one `fetchall`,
repeated `fetchone` until exhaustion, or repeated `fetchmany(n)` (any
`n ≥ 1`) until an empty batch. -/
theorem C4_consumption_equivalence (svc : FetchService (List HostValue))
    (mysqlTable : Nat → Option String) (pgTable : String → Option String)
    (cur : CursorState) (n : Nat) (l : List (List HostValue))
    (hl : cursorRowStream svc mysqlTable pgTable cur = .ok l) (hn : 1 ≤ n) :
    fetchallList l = iterationList l
    ∧ drainFetchone l = iterationList l
    ∧ drainFetchmany n l = iterationList l
    ∧ (drainFetchmany n l).length = (iterationList l).length := by
  rw [fetchallList_eq, iterationList_eq, drainFetchone_eq, drainFetchmany_eq n hn]
  exact ⟨rfl, rfl, rfl, rfl⟩

/-- Witness for C4: a three-row direct-path cursor consumed with
`fetchmany(2)` batches. -/
theorem C4_consumption_equivalence_witness :
    fetchallList [[HostValue.int 1], [HostValue.int 2], [HostValue.int 3]] =
      iterationList [[HostValue.int 1], [HostValue.int 2], [HostValue.int 3]]
    ∧ drainFetchone [[HostValue.int 1], [HostValue.int 2], [HostValue.int 3]] =
      iterationList [[HostValue.int 1], [HostValue.int 2], [HostValue.int 3]]
    ∧ drainFetchmany 2 [[HostValue.int 1], [HostValue.int 2], [HostValue.int 3]] =
      iterationList [[HostValue.int 1], [HostValue.int 2], [HostValue.int 3]]
    ∧ (drainFetchmany 2 [[HostValue.int 1], [HostValue.int 2], [HostValue.int 3]]).length =
      (iterationList [[HostValue.int 1], [HostValue.int 2], [HostValue.int 3]]).length :=
  C4_consumption_equivalence ⟨[], fun _ => 0, 0⟩ (fun _ => Option.none) (fun _ => Option.none)
    ⟨1000, Option.none,
      some ⟨Option.none, some [[HostValue.int 1], [HostValue.int 2], [HostValue.int 3]],
            Option.none, Option.none⟩,
      Option.none, Option.none⟩
    2 [[HostValue.int 1], [HostValue.int 2], [HostValue.int 3]] rfl (by decide)

/-! ### Fetch-loop lemmas (towards C1) -/

/-- A fetch-loop run that completes normally and never hit an oversize
failure on a short page yields exactly the remaining rows of the
server-side cursor: nothing lost, nothing duplicated. -/
theorem fetchLoop_ok_rows (svc : FetchService ρ) (mysqlTable : Nat → Option String)
    (pgTable : String → Option String) (pg_cursor_name : String) :
    ∀ fuel pos rpp out, 1 ≤ rpp →
      (fetchLoop svc mysqlTable pgTable pg_cursor_name fuel pos rpp).result = .ok out →
      (fetchLoop svc mysqlTable pgTable pg_cursor_name fuel pos rpp).shortOverflow = false →
      out = svc.rows.drop pos := by
  intro fuel
  induction fuel with
  | zero =>
    intro pos rpp out _ hok _
    simp [fetchLoop] at hok
  | succ fuel ih =>
    intro pos rpp out hrpp hok hshort
    simp only [fetchLoop] at hok hshort
    by_cases hov : ((((svc.rows.drop pos).take rpp).map svc.rowSize).sum > svc.sizeLimit)
    · by_cases h1 : rpp > 1
      · simp only [hov, h1, if_true] at hok hshort
        simp only [Bool.or_eq_false_iff, decide_eq_false_iff_not, not_lt] at hshort
        have hlen : ((svc.rows.drop pos).take rpp).length = rpp := by
          have := List.length_take rpp (svc.rows.drop pos)
          have := hshort.1
          omega
        have hih := ih (pos + ((svc.rows.drop pos).take rpp).length - rpp) (rpp / 2) out
          (by omega) hok hshort.2
        rw [hlen] at hih
        simpa using hih
      · simp only [hov, h1, if_true, if_false] at hok
        exact absurd hok (by simp)
    · simp only [hov, if_false] at hok hshort
      by_cases hemp : ((svc.rows.drop pos).take rpp).isEmpty
      · simp only [hemp, if_true] at hok
        have hout : out = [] := by
          cases hok
          rfl
        subst hout
        simp only [List.isEmpty_eq_true, List.take_eq_nil_iff] at hemp
        rcases hemp with h0 | h0
        · omega
        · exact h0.symm
      · simp only [hemp, if_false] at hok hshort
        rcases hrest : (fetchLoop svc mysqlTable pgTable pg_cursor_name fuel
            (pos + ((svc.rows.drop pos).take rpp).length) rpp).result with out' | e' | u <;>
          rw [hrest] at hok
        · have hout : out = (svc.rows.drop pos).take rpp ++ out' := by
            cases hok
            rfl
          have hih := ih (pos + ((svc.rows.drop pos).take rpp).length) rpp out' hrpp
            (by rw [hrest]) hshort
          subst hout
          rw [hih]
          have hdd : svc.rows.drop (pos + ((svc.rows.drop pos).take rpp).length) =
              (svc.rows.drop pos).drop (((svc.rows.drop pos).take rpp).length) := by
            rw [List.drop_drop]
          rw [hdd]
          have hmin : (svc.rows.drop pos).drop (((svc.rows.drop pos).take rpp).length) =
              (svc.rows.drop pos).drop rpp := by
            rw [List.length_take]
            rcases Nat.le_total rpp (svc.rows.drop pos).length with hc | hc
            · rw [Nat.min_eq_left hc]
            · rw [Nat.min_eq_right hc, List.drop_length, List.drop_eq_nil_of_le hc]
          rw [hmin]
          exact List.take_append_drop rpp (svc.rows.drop pos)
        · exact absurd hok (by simp)
        · exact absurd hok (by simp)

/-- C1 (amended): when a fetch fails with the oversize signal at page
size `N > 1`, the loop issues the rewind statement built by `scroll`
(`MOVE RELATIVE -N`, an equivalent backward move, rather than a literal
`MOVE BACKWARD N`), halves the page size with a floor of one, and
retries; a run that completes with no oversize failure on a short final
page yields the cursor's rows without loss or duplication; at page size
1 the oversize signal is fatal and surfaces as the classified database
error with no further statements issued. -/
theorem C1_oversize_recovery (svc : FetchService ρ) (mysqlTable : Nat → Option String)
    (pgTable : String → Option String) (pg_cursor_name : String) (fuel pos rpp : Nat) :
    ((((svc.rows.drop pos).take rpp).map svc.rowSize).sum > svc.sizeLimit → 1 < rpp →
      (fetchLoop svc mysqlTable pgTable pg_cursor_name (fuel + 1) pos rpp).log =
        fetchSql rpp pg_cursor_name ::
          scrollStmt (-(rpp : Int)) "relative" pg_cursor_name ::
          (fetchLoop svc mysqlTable pgTable pg_cursor_name fuel
            (pos + ((svc.rows.drop pos).take rpp).length - rpp) (rpp / 2)).log
      ∧ (fetchLoop svc mysqlTable pgTable pg_cursor_name (fuel + 1) pos rpp).result =
          (fetchLoop svc mysqlTable pgTable pg_cursor_name fuel
            (pos + ((svc.rows.drop pos).take rpp).length - rpp) (rpp / 2)).result
      ∧ 1 ≤ rpp / 2)
    ∧ (∀ out, 1 ≤ rpp →
        (fetchLoop svc mysqlTable pgTable pg_cursor_name fuel pos rpp).result = .ok out →
        (fetchLoop svc mysqlTable pgTable pg_cursor_name fuel pos rpp).shortOverflow = false →
        out = svc.rows.drop pos)
    ∧ ((((svc.rows.drop pos).take rpp).map svc.rowSize).sum > svc.sizeLimit → rpp = 1 →
        (fetchLoop svc mysqlTable pgTable pg_cursor_name (fuel + 1) pos rpp).result =
          .dbError (getDatabaseError mysqlTable pgTable oversizeError)
        ∧ (fetchLoop svc mysqlTable pgTable pg_cursor_name (fuel + 1) pos rpp).log =
          [fetchSql rpp pg_cursor_name]) := by
  refine ⟨fun hov h1 => ?_, fun out hrpp hok hshort =>
    fetchLoop_ok_rows svc mysqlTable pgTable pg_cursor_name fuel pos rpp out hrpp hok hshort,
    fun hov h1 => ?_⟩
  · constructor
    · simp only [fetchLoop, hov, h1, if_true]
    · constructor
      · simp only [fetchLoop, hov, h1, if_true]
      · omega
  · subst h1
    constructor
    · simp only [fetchLoop, hov, if_true]
      norm_num
    · simp only [fetchLoop, hov, if_true]
      norm_num

/-- Witness for C1's amended contract: a recovery step at page size 4
(rewind issued, halved retry), a clean three-row run with no loss or
duplication, and the fatal oversize at page size 1, all at concrete
inputs. -/
theorem C1_oversize_recovery_witness :
    ((fetchLoop ⟨[0], fun _ => 10, 5⟩ (fun _ => Option.none) (fun _ => Option.none)
        "c" (3 + 1) 0 4).log =
      fetchSql 4 "c" :: scrollStmt (-(4 : Int)) "relative" "c" ::
        (fetchLoop ⟨[0], fun _ => 10, 5⟩ (fun _ => Option.none) (fun _ => Option.none)
          "c" 3 (0 + ((List.drop 0 [0]).take 4).length - 4) (4 / 2)).log
     ∧ (fetchLoop ⟨[0], fun _ => 10, 5⟩ (fun _ => Option.none) (fun _ => Option.none)
          "c" (3 + 1) 0 4).result =
        (fetchLoop ⟨[0], fun _ => 10, 5⟩ (fun _ => Option.none) (fun _ => Option.none)
          "c" 3 (0 + ((List.drop 0 [0]).take 4).length - 4) (4 / 2)).result
     ∧ 1 ≤ 4 / 2)
    ∧ ([1, 2, 3] : List Nat) = List.drop 0 [1, 2, 3]
    ∧ ((fetchLoop ⟨[0], fun _ => 10, 5⟩ (fun _ => Option.none) (fun _ => Option.none)
          "c" (3 + 1) 0 1).result =
        .dbError (getDatabaseError (fun _ => Option.none) (fun _ => Option.none)
          oversizeError)
       ∧ (fetchLoop ⟨[0], fun _ => 10, 5⟩ (fun _ => Option.none) (fun _ => Option.none)
          "c" (3 + 1) 0 1).log = [fetchSql 1 "c"]) :=
  ⟨(C1_oversize_recovery ⟨[0], fun _ => 10, 5⟩ (fun _ => Option.none) (fun _ => Option.none)
      "c" 3 0 4).1 (by decide) (by decide),
   (C1_oversize_recovery ⟨[1, 2, 3], fun _ => 1, 10⟩ (fun _ => Option.none)
      (fun _ => Option.none) "c" 10 0 2).2.1 [1, 2, 3] (by decide) (by decide) (by decide),
   (C1_oversize_recovery ⟨[0], fun _ => 10, 5⟩ (fun _ => Option.none) (fun _ => Option.none)
      "c" 3 0 1).2.2 (by decide) rfl⟩

/-- C1 counterexample: the rewind statement actually issued is
`MOVE RELATIVE -N FROM <cursor>` (via `scroll(-n)` with the default
`"relative"` mode), never the claimed `MOVE BACKWARD N`; moreover a run
whose oversize failure lands on a short final page over-rewinds and
duplicates a row (`13` below appears twice in a successfully completed
run over distinct rows). -/
theorem C1_counterexample :
    (fetchLoop ⟨[0], fun _ => 10, 5⟩ (fun _ => Option.none) (fun _ => Option.none)
        "c" 10 0 4).log =
      ["FETCH 4 FROM c", "MOVE RELATIVE -4 FROM c", "FETCH 2 FROM c",
       "MOVE RELATIVE -2 FROM c", "FETCH 1 FROM c"]
    ∧ "MOVE BACKWARD 4 FROM c" ∉
        (fetchLoop ⟨[0], fun _ => 10, 5⟩ (fun _ => Option.none) (fun _ => Option.none)
          "c" 10 0 4).log
    ∧ (fetchLoop ⟨[10, 11, 12, 13, 14, 15, 16], fun r => if 15 ≤ r then 9 else 1, 9⟩
        (fun _ => Option.none) (fun _ => Option.none) "c" 20 0 8).result =
      .ok [10, 11, 12, 13, 13, 14, 15, 16] := by
  decide

/-! ### Codec lemmas (towards C3): digit characters and fixed-width fields -/

theorem digitChar_isDigit {d : Nat} (h : d < 10) : (digitChar d).isDigit = true := by
  interval_cases d <;> decide

theorem charVal_digitChar {d : Nat} (h : d < 10) : charVal (digitChar d) = d := by
  interval_cases d <;> decide

theorem digitChar_mod10_isDigit (n : Nat) : (digitChar (n % 10)).isDigit = true :=
  digitChar_isDigit (Nat.mod_lt _ (by norm_num))

theorem charVal_digitChar_mod10 (n : Nat) : charVal (digitChar (n % 10)) = n % 10 :=
  charVal_digitChar (Nat.mod_lt _ (by norm_num))

theorem val2_pad2 {n : Nat} (h : n ≤ 99) :
    val2 (digitChar (n / 10 % 10)) (digitChar (n % 10)) = n := by
  simp only [val2, charVal_digitChar_mod10]
  omega

theorem val4_pad4 {n : Nat} (h : n ≤ 9999) :
    val4 (digitChar (n / 1000 % 10)) (digitChar (n / 100 % 10)) (digitChar (n / 10 % 10))
      (digitChar (n % 10)) = n := by
  simp only [val4, charVal_digitChar_mod10]
  omega

/-! ### Codec lemmas: ISO round-trips for date, time, timestamp -/

theorem daysInMonth_le (y m : Nat) : daysInMonth y m ≤ 31 := by
  unfold daysInMonth
  split
  · split <;> omega
  · split <;> omega

theorem dateFromIso_round (d : PyDate) (hv : d.valid = true) :
    dateFromIso (dateChars d) = some d := by
  have hb := hv
  simp only [PyDate.valid, Bool.and_eq_true, decide_eq_true_eq] at hb
  obtain ⟨⟨⟨⟨⟨h1, h2⟩, h3⟩, h4⟩, h5⟩, h6⟩ := hb
  simp only [dateChars, pad4, pad2, List.cons_append, List.nil_append, dateFromIso,
    List.all_cons, List.all_nil, digitChar_mod10_isDigit, Bool.and_self, Bool.and_true,
    if_true]
  rw [val4_pad4 h2, val2_pad2 (by omega : d.month ≤ 99),
    val2_pad2 (by have := daysInMonth_le d.year d.month; omega : d.day ≤ 99)]
  simp [hv]

theorem isoFraction_pad6 {us : Nat} (h : us ≤ 999999) : isoFraction (pad6 us) = some us := by
  simp only [pad6, isoFraction, List.all_cons, List.all_nil, digitChar_mod10_isDigit,
    Bool.and_self, Bool.and_true, if_true, charVal_digitChar_mod10]
  congr 1
  omega

theorem timeFromIso_round (t : PyTime) (hv : t.valid = true) :
    timeFromIso (timeChars t) = some t := by
  have hb := hv
  simp only [PyTime.valid, Bool.and_eq_true, decide_eq_true_eq] at hb
  obtain ⟨⟨⟨h1, h2⟩, h3⟩, h4⟩ := hb
  by_cases hus : t.microsecond = 0
  · simp only [timeChars, hus, if_true, pad2, List.cons_append, List.nil_append,
      List.append_nil, timeFromIso, List.all_cons, List.all_nil, digitChar_mod10_isDigit,
      Bool.and_self, Bool.and_true, if_true]
    rw [val2_pad2 (by omega : t.hour ≤ 99), val2_pad2 (by omega : t.minute ≤ 99),
      val2_pad2 (by omega : t.second ≤ 99)]
    have ht : (⟨t.hour, t.minute, t.second, 0⟩ : PyTime) = t := by
      cases t
      simp_all
    rw [ht]
    simp [hv]
  · simp only [timeChars, hus, if_false, pad2, List.cons_append, List.nil_append,
      timeFromIso]
    rw [isoFraction_pad6 (by omega : t.microsecond ≤ 999999)]
    simp only [List.all_cons, List.all_nil, digitChar_mod10_isDigit, Bool.and_self,
      Bool.and_true, if_true]
    rw [val2_pad2 (by omega : t.hour ≤ 99), val2_pad2 (by omega : t.minute ≤ 99),
      val2_pad2 (by omega : t.second ≤ 99)]
    simp [hv]

theorem dateChars_length (d : PyDate) : (dateChars d).length = 10 := by
  simp [dateChars, pad4, pad2]

theorem datetimeFromIso_round (dt : PyDateTime) (hv : dt.valid = true) :
    datetimeFromIso (datetimeChars dt) = some dt := by
  have hb := hv
  simp only [PyDateTime.valid, Bool.and_eq_true] at hb
  have hdate : (datetimeChars dt).take 10 = dateChars dt.date := by
    rw [datetimeChars, ← dateChars_length dt.date]
    exact List.take_left _ _
  have htime : (datetimeChars dt).drop 10 = ' ' :: timeChars dt.time := by
    rw [datetimeChars, ← dateChars_length dt.date]
    exact List.drop_left _ _
  rw [datetimeFromIso, hdate, dateFromIso_round dt.date hb.1, htime]
  simp [timeFromIso_round dt.time hb.2]

/-! ### Codec lemmas: `Decimal` to-scientific-string round-trip -/

/-- The first character (if any) is not a digit. -/
def headNonDigit : List Char → Prop
  | [] => True
  | c :: _ => c.isDigit = false

theorem takeWhile_digits_append {a : List Char} (ha : ∀ c ∈ a, c.isDigit = true)
    {r : List Char} (hr : headNonDigit r) :
    (a ++ r).takeWhile Char.isDigit = a ∧ (a ++ r).dropWhile Char.isDigit = r := by
  induction a with
  | nil =>
    simp only [List.nil_append]
    cases r with
    | nil => simp
    | cons c cs =>
      simp only [headNonDigit] at hr
      simp [List.takeWhile, List.dropWhile, hr]
  | cons c a ih =>
    have hc : c.isDigit = true := ha c (by simp)
    have ha' : ∀ x ∈ a, x.isDigit = true := fun x hx => ha x (by simp [hx])
    obtain ⟨ht, hd⟩ := ih ha'
    simp [List.takeWhile, List.dropWhile, hc, ht, hd]

theorem map_charVal_digitChar {ds : List Nat} (h : ∀ d ∈ ds, d < 10) :
    (ds.map digitChar).map charVal = ds := by
  induction ds with
  | nil => rfl
  | cons d ds ih =>
    have hd : d < 10 := h d (by simp)
    have h' : ∀ x ∈ ds, x < 10 := fun x hx => h x (by simp [hx])
    simp [charVal_digitChar hd, ih h']

theorem map_digitChar_all_digits {ds : List Nat} (h : ∀ d ∈ ds, d < 10) :
    ∀ c ∈ ds.map digitChar, c.isDigit = true := by
  intro c hc
  obtain ⟨d, hd, rfl⟩ := List.mem_map.mp hc
  exact digitChar_isDigit (h d hd)

theorem valOfDigits_reverse (ds : List Nat) :
    valOfDigits ds.reverse = Nat.ofDigits 10 ds := by
  induction ds with
  | nil => rfl
  | cons d ds ih =>
    simp only [List.reverse_cons, valOfDigits, List.foldl_append, List.foldl_cons,
      List.foldl_nil, Nat.ofDigits_cons]
    simp only [valOfDigits] at ih
    omega

theorem natChars_all_lt (k : Nat) :
    ∃ ds : List Nat, natChars k = ds.map digitChar ∧ (∀ d ∈ ds, d < 10) ∧ ds ≠ [] ∧
      valOfDigits ds = k := by
  by_cases hk : k = 0
  · exact ⟨[0], by simp [natChars, hk, digitChar], by simp, by simp,
      by simp [valOfDigits, hk]⟩
  · refine ⟨(Nat.digits 10 k).reverse, by simp [natChars, hk], ?_, ?_, ?_⟩
    · intro d hd
      exact Nat.digits_lt_base (by norm_num) (List.mem_reverse.mp hd)
    · simp [Nat.digits_ne_nil_iff_ne_zero.mpr hk]
    · rw [valOfDigits_reverse, Nat.ofDigits_digits]

theorem digitChar_ne_dash {d : Nat} (h : d < 10) : digitChar d ≠ '-' := by
  interval_cases d <;> decide

theorem digitChar_ne_plus {d : Nat} (h : d < 10) : digitChar d ≠ '+' := by
  interval_cases d <;> decide

theorem parseExpTail_plus (k : Nat) :
    parseExpTail ('E' :: '+' :: natChars k) = some (k : Int) := by
  obtain ⟨ds, hmap, hlt, hne, hval⟩ := natChars_all_lt k
  have hmape : (ds.map digitChar).isEmpty = false := by
    cases ds
    · exact absurd rfl hne
    · simp
  have hall : (ds.map digitChar).all Char.isDigit = true :=
    List.all_eq_true.mpr (map_digitChar_all_digits hlt)
  simp [parseExpTail, hmap, hmape, hall, map_charVal_digitChar hlt, hval]

theorem parseExpTail_minus (k : Nat) :
    parseExpTail ('E' :: '-' :: natChars k) = some (-(k : Int)) := by
  obtain ⟨ds, hmap, hlt, hne, hval⟩ := natChars_all_lt k
  have hmape : (ds.map digitChar).isEmpty = false := by
    cases ds
    · exact absurd rfl hne
    · simp
  have hall : (ds.map digitChar).all Char.isDigit = true :=
    List.all_eq_true.mpr (map_digitChar_all_digits hlt)
  simp [parseExpTail, hmap, hmape, hall, map_charVal_digitChar hlt, hval]

theorem dropWhile_zero_replicate (k : Nat) (ds : List Nat) :
    (List.replicate k 0 ++ ds).dropWhile (· = 0) = ds.dropWhile (· = 0) := by
  induction k with
  | zero => simp
  | succ k ih => simp [List.replicate_succ, List.dropWhile, ih]

/-- Python `normCoeff` recovers a canonical coefficient from any number of
prepended zeros. -/
theorem normCoeff_canonical {ds : List Nat} (hne : ds ≠ [])
    (hz : ds.head? = some 0 → ds = [0]) (k : Nat) :
    normCoeff (List.replicate k 0 ++ ds) = ds := by
  rcases ds with _ | ⟨d, t⟩
  · exact absurd rfl hne
  by_cases hd : d = 0
  · subst hd
    have ht : t = [] := by simpa using hz rfl
    subst ht
    unfold normCoeff
    rw [dropWhile_zero_replicate]
    simp [List.dropWhile]
  · unfold normCoeff
    rw [dropWhile_zero_replicate]
    simp [List.dropWhile, hd]

theorem parseDecimalChars_sign (neg : Bool) {d0 : Nat} (hd : d0 < 10) (rest : List Char) :
    parseDecimalChars ((if neg then ['-'] else []) ++ digitChar d0 :: rest) =
      parseDecimalBody neg (digitChar d0 :: rest) := by
  cases neg
  · simp [parseDecimalChars, digitChar_ne_dash hd, digitChar_ne_plus hd]
  · simp [parseDecimalChars]

theorem parseDecimalBody_digits (neg : Bool) {p : List Nat}
    (hip : ∀ d ∈ p, d < 10) (hne : p ≠ []) :
    parseDecimalBody neg (p.map digitChar) = some ⟨neg, normCoeff p, 0⟩ := by
  obtain ⟨htw, hdw⟩ :=
    takeWhile_digits_append (map_digitChar_all_digits hip) (r := []) trivial
  rw [List.append_nil] at htw hdw
  have hipe : (p.map digitChar).isEmpty = false := by
    cases p
    · exact absurd rfl hne
    · simp
  simp [parseDecimalBody, htw, hdw, hipe, parseExpTail, map_charVal_digitChar hip]

theorem parseDecimalBody_dot (neg : Bool) {p q : List Nat}
    (hip : ∀ d ∈ p, d < 10) (hfp : ∀ d ∈ q, d < 10) (hne : p ≠ []) :
    parseDecimalBody neg (p.map digitChar ++ '.' :: q.map digitChar) =
      some ⟨neg, normCoeff (p ++ q), -(q.length : Int)⟩ := by
  obtain ⟨htw, hdw⟩ := takeWhile_digits_append (map_digitChar_all_digits hip)
    (r := '.' :: q.map digitChar) (by simp [headNonDigit])
  obtain ⟨htw2, hdw2⟩ :=
    takeWhile_digits_append (map_digitChar_all_digits hfp) (r := []) trivial
  rw [List.append_nil] at htw2 hdw2
  have hipe : (p.map digitChar).isEmpty = false := by
    cases p
    · exact absurd rfl hne
    · simp
  simp only [parseDecimalBody, htw, hdw, htw2, hdw2, hipe, parseExpTail, List.length_map,
    Bool.false_eq_true, false_and, if_false]
  rw [← List.map_append, map_charVal_digitChar (by
    intro d hd
    rcases List.mem_append.mp hd with h | h
    · exact hip d h
    · exact hfp d h)]
  norm_num

theorem parseDecimalBody_digitsExp (neg : Bool) {p : List Nat} {t : List Char} {E : Int}
    (hip : ∀ d ∈ p, d < 10) (hne : p ≠ [])
    (hexp : parseExpTail ('E' :: t) = some E) :
    parseDecimalBody neg (p.map digitChar ++ 'E' :: t) = some ⟨neg, normCoeff p, E⟩ := by
  obtain ⟨htw, hdw⟩ := takeWhile_digits_append (map_digitChar_all_digits hip)
    (r := 'E' :: t) (by simp [headNonDigit])
  have hipe : (p.map digitChar).isEmpty = false := by
    cases p
    · exact absurd rfl hne
    · simp
  simp [parseDecimalBody, htw, hdw, hipe, hexp, map_charVal_digitChar hip]

theorem parseDecimalBody_dotExp (neg : Bool) {p q : List Nat} {t : List Char} {E : Int}
    (hip : ∀ d ∈ p, d < 10) (hfp : ∀ d ∈ q, d < 10) (hne : p ≠ [])
    (hexp : parseExpTail ('E' :: t) = some E) :
    parseDecimalBody neg (p.map digitChar ++ '.' :: (q.map digitChar ++ 'E' :: t)) =
      some ⟨neg, normCoeff (p ++ q), E - q.length⟩ := by
  obtain ⟨htw, hdw⟩ := takeWhile_digits_append (map_digitChar_all_digits hip)
    (r := '.' :: (q.map digitChar ++ 'E' :: t)) (by simp [headNonDigit])
  obtain ⟨htw2, hdw2⟩ := takeWhile_digits_append (map_digitChar_all_digits hfp)
    (r := 'E' :: t) (by simp [headNonDigit])
  have hipe : (p.map digitChar).isEmpty = false := by
    cases p
    · exact absurd rfl hne
    · simp
  simp only [parseDecimalBody, htw, hdw, htw2, hdw2, hipe, hexp, List.length_map,
    Bool.false_eq_true, false_and, if_false]
  rw [← List.map_append, map_charVal_digitChar (by
    intro d hd
    rcases List.mem_append.mp hd with h | h
    · exact hip d h
    · exact hfp d h)]

/-- Python `normCoeff` is the identity on a canonical coefficient. -/
theorem normCoeff_id {ds : List Nat} (hne : ds ≠ [])
    (hz : ds.head? = some 0 → ds = [0]) : normCoeff ds = ds := by
  have := normCoeff_canonical hne hz 0
  simpa using this

/-- The `Decimal` round-trip: parsing the to-scientific-string rendering
of a canonical decimal recovers it exactly. -/
theorem parseDecimalChars_sciChars (x : PyDecimal) (hx : x.canonical) :
    parseDecimalChars x.sciChars = some x := by
  rcases x with ⟨xneg, xds, xexp⟩
  simp only [PyDecimal.canonical] at hx
  obtain ⟨hne, hlt, hz⟩ := hx
  have hL : 0 < xds.length := List.length_pos.mpr hne
  simp only [PyDecimal.sciChars]
  by_cases hplain : xexp ≤ 0 ∧ xexp + (xds.length : Int) > -6
  · rw [if_pos hplain, if_pos rfl, List.append_nil]
    by_cases hA : xexp + (xds.length : Int) ≤ 0
    · -- `0.00…digits`
      rw [if_pos hA]
      rw [show ('0' : Char) = digitChar 0 from rfl, ← List.map_replicate, ← List.map_append]
      rw [parseDecimalChars_sign _ (by norm_num)]
      have hfp : ∀ d ∈ List.replicate (-(xexp + (xds.length : Int))).toNat 0 ++ xds,
          d < 10 := by
        intro d hd
        rcases List.mem_append.mp hd with h | h
        · simp [List.eq_of_mem_replicate h]
        · exact hlt d h
      refine (parseDecimalBody_dot xneg (p := [0]) (by simp) hfp (by simp)).trans ?_
      have hrep : ([0] ++ (List.replicate (-(xexp + (xds.length : Int))).toNat 0 ++ xds)) =
          List.replicate ((-(xexp + (xds.length : Int))).toNat + 1) 0 ++ xds := by
        simp [List.replicate_succ]
      rw [hrep, normCoeff_canonical hne hz]
      have hcast : ((-(xexp + (xds.length : Int))).toNat : Int) =
          -(xexp + (xds.length : Int)) := Int.toNat_of_nonneg (by omega)
      have hexps : -(((List.replicate (-(xexp + (xds.length : Int))).toNat 0 ++
          xds).length : Int)) = xexp := by
        simp only [List.length_append, List.length_replicate]
        push_cast
        omega
      rw [hexps]
    · by_cases hB : xexp + (xds.length : Int) ≥ (xds.length : Int)
      · -- pure digit string (exponent zero)
        rw [if_neg hA, if_pos hB]
        have hexp0 : xexp = 0 := by omega
        rw [show (xexp + (xds.length : Int)).toNat - xds.length = 0 by omega,
          List.replicate_zero, List.append_nil]
        rcases xds with _ | ⟨d0, dt⟩
        · exact absurd rfl hne
        rw [List.map_cons, parseDecimalChars_sign _ (hlt d0 (by simp))]
        rw [show (digitChar d0 :: dt.map digitChar) = (d0 :: dt).map digitChar from rfl]
        refine (parseDecimalBody_digits xneg hlt hne).trans ?_
        rw [normCoeff_id hne hz, hexp0]
      · -- digits with an interior decimal point
        rw [if_neg hA, if_neg hB]
        obtain ⟨m, hm⟩ : ∃ m, (xexp + (xds.length : Int)).toNat = m + 1 :=
          ⟨(xexp + (xds.length : Int)).toNat - 1, by omega⟩
        have hmlt : (m : Int) + 1 = xexp + (xds.length : Int) := by omega
        rcases xds with _ | ⟨d0, dt⟩
        · exact absurd rfl hne
        have hmdt : m < dt.length := by
          simp only [List.length_cons] at hmlt hB hA ⊢
          omega
        rw [hm, List.take_succ_cons, List.drop_succ_cons, List.map_cons,
          List.cons_append, parseDecimalChars_sign _ (hlt d0 (by simp))]
        rw [show (digitChar d0 :: ((dt.take m).map digitChar ++
              '.' :: (dt.drop m).map digitChar)) =
            ((d0 :: dt.take m).map digitChar ++ '.' :: (dt.drop m).map digitChar) from rfl]
        have hip : ∀ d ∈ d0 :: dt.take m, d < 10 := by
          intro d hd
          rcases List.mem_cons.mp hd with h | h
          · exact h ▸ hlt d0 (by simp)
          · exact hlt d (by simp [List.mem_of_mem_take h])
        have hfp : ∀ d ∈ dt.drop m, d < 10 := fun d hd =>
          hlt d (by simp [List.mem_of_mem_drop hd])
        refine (parseDecimalBody_dot xneg hip hfp (by simp)).trans ?_
        rw [show ((d0 :: dt.take m) ++ dt.drop m) = d0 :: dt from by
          rw [List.cons_append, List.take_append_drop]]
        rw [normCoeff_id hne hz]
        have hexps : -(((dt.drop m).length : Int)) = xexp := by
          simp only [List.length_drop]
          simp only [List.length_cons] at hmlt
          push_cast [Nat.cast_sub (Nat.le_of_lt hmdt)]
          omega
        rw [hexps]
  · -- scientific notation, dotplace = 1
    rw [if_neg hplain]
    have hld1 : ¬(xexp + (xds.length : Int) = 1) := by
      intro h1
      exact hplain ⟨by omega, by omega⟩
    rw [if_neg hld1, if_neg (by norm_num : ¬((1 : Int) ≤ 0))]
    by_cases hSgn : xexp + (xds.length : Int) - 1 ≥ 0
    · rw [if_pos hSgn]
      by_cases hB1 : (1 : Int) ≥ (xds.length : Int)
      · -- single coefficient digit, positive exponent
        have hL1 : xds.length = 1 := by omega
        rw [if_pos hB1, show (1 : Int).toNat - xds.length = 0 by omega,
          List.replicate_zero, List.append_nil]
        rcases xds with _ | ⟨d0, dt⟩
        · exact absurd rfl hne
        have hdt : dt = [] := by
          simp only [List.length_cons] at hL1
          exact List.length_eq_zero.mp (by omega)
        subst hdt
        simp only [List.map_cons, List.map_nil, List.append_assoc, List.singleton_append]
        rw [parseDecimalChars_sign _ (hlt d0 (by simp))]
        refine (parseDecimalBody_digitsExp xneg (p := [d0]) (by
            intro d hd
            rw [List.mem_singleton] at hd
            subst hd
            exact hlt d (by simp)) (by simp)
          (parseExpTail_plus _)).trans ?_
        rw [normCoeff_id hne hz]
        have hexps : ((xexp + (([d0] : List Nat).length : Int) - 1).toNat : Int) = xexp := by
          rw [Int.toNat_of_nonneg (by simpa using hSgn)]
          simp
        rw [hexps]
      · -- leading digit, point, remaining digits, positive exponent
        rw [if_neg hB1]
        rcases xds with _ | ⟨d0, dt⟩
        · exact absurd rfl hne
        have hdt : dt ≠ [] := by
          intro h0
          subst h0
          simp at hB1
        rw [show ((1 : Int).toNat) = 1 from rfl]
        simp only [List.take_succ_cons, List.take_zero, List.drop_succ_cons, List.drop_zero,
          List.map_cons, List.map_nil, List.append_assoc, List.singleton_append,
          List.cons_append]
        rw [parseDecimalChars_sign _ (hlt d0 (by simp))]
        have hip : ∀ d ∈ ([d0] : List Nat), d < 10 := by
          intro d hd
          rw [List.mem_singleton] at hd
          subst hd
          exact hlt d (by simp)
        have hfp : ∀ d ∈ dt, d < 10 := fun d hd => hlt d (by simp [hd])
        refine (parseDecimalBody_dotExp xneg (p := [d0]) (q := dt) hip hfp (by simp)
          (parseExpTail_plus _)).trans ?_
        rw [List.singleton_append, normCoeff_id hne hz]
        have hexps : ((xexp + (((d0 :: dt) : List Nat).length : Int) - 1).toNat : Int) -
            (dt.length : Int) = xexp := by
          rw [Int.toNat_of_nonneg (by simpa using hSgn)]
          simp only [List.length_cons]
          push_cast
          ring
        rw [hexps]
    · rw [if_neg hSgn]
      by_cases hB1 : (1 : Int) ≥ (xds.length : Int)
      · -- single coefficient digit, negative exponent
        have hL1 : xds.length = 1 := by omega
        rw [if_pos hB1, show (1 : Int).toNat - xds.length = 0 by omega,
          List.replicate_zero, List.append_nil]
        rcases xds with _ | ⟨d0, dt⟩
        · exact absurd rfl hne
        have hdt : dt = [] := by
          simp only [List.length_cons] at hL1
          exact List.length_eq_zero.mp (by omega)
        subst hdt
        simp only [List.map_cons, List.map_nil, List.append_assoc, List.singleton_append]
        rw [parseDecimalChars_sign _ (hlt d0 (by simp))]
        refine (parseDecimalBody_digitsExp xneg (p := [d0]) (by
            intro d hd
            rw [List.mem_singleton] at hd
            subst hd
            exact hlt d (by simp)) (by simp)
          (parseExpTail_minus _)).trans ?_
        rw [normCoeff_id hne hz]
        have hexps : -(((1 - (xexp + (([d0] : List Nat).length : Int))).toNat : Int)) =
            xexp := by
          rw [Int.toNat_of_nonneg (by simp only [List.length_singleton]; omega)]
          simp
        rw [hexps]
      · -- leading digit, point, remaining digits, negative exponent
        rw [if_neg hB1]
        rcases xds with _ | ⟨d0, dt⟩
        · exact absurd rfl hne
        have hdt : dt ≠ [] := by
          intro h0
          subst h0
          simp at hB1
        rw [show ((1 : Int).toNat) = 1 from rfl]
        simp only [List.take_succ_cons, List.take_zero, List.drop_succ_cons, List.drop_zero,
          List.map_cons, List.map_nil, List.append_assoc, List.singleton_append,
          List.cons_append]
        rw [parseDecimalChars_sign _ (hlt d0 (by simp))]
        have hip : ∀ d ∈ ([d0] : List Nat), d < 10 := by
          intro d hd
          rw [List.mem_singleton] at hd
          subst hd
          exact hlt d (by simp)
        have hfp : ∀ d ∈ dt, d < 10 := fun d hd => hlt d (by simp [hd])
        refine (parseDecimalBody_dotExp xneg (p := [d0]) (q := dt) hip hfp (by simp)
          (parseExpTail_minus _)).trans ?_
        rw [List.singleton_append, normCoeff_id hne hz]
        have hexps : -(((1 - (xexp + (((d0 :: dt) : List Nat).length : Int))).toNat : Int)) -
            (dt.length : Int) = xexp := by
          rw [Int.toNat_of_nonneg (by simp only [List.length_cons] at hSgn ⊢; omega)]
          simp only [List.length_cons]
          push_cast
          ring
        rw [hexps]


/-- C3: encoding any supported scalar parameter value (with its type
hint for date/time/timestamp/decimal) and decoding the resulting tagged
wire value under a column description of the matching semantic type
yields a value equal to the original. -/
theorem C3_encode_decode_roundtrip (v : ParamValue) (hv : v.valid) :
    renderValue (prepare_param "p" v).value (some ⟨"col", matchingTypeCode v⟩) =
      .ok v.toHost := by
  cases v with
  | none => rfl
  | bool b => rfl
  | int n => rfl
  | float f => rfl
  | str s => rfl
  | bytes b => rfl
  | date d =>
    have hvd : d.valid = true := hv
    simp [prepare_param, matchingTypeCode, renderValue, hintedTypeCode, dateStr,
      ParamValue.toHost, dateFromIso_round d hvd]
  | time t =>
    have hvt : t.valid = true := hv
    simp [prepare_param, matchingTypeCode, renderValue, hintedTypeCode, timeStr,
      ParamValue.toHost, timeFromIso_round t hvt]
  | datetime dt =>
    have hvdt : dt.valid = true := hv
    simp [prepare_param, matchingTypeCode, renderValue, hintedTypeCode, datetimeStr,
      ParamValue.toHost, datetimeFromIso_round dt hvdt]
  | decimal x =>
    have hvx : x.canonical := hv
    simp [prepare_param, matchingTypeCode, renderValue, hintedTypeCode, decimalStr,
      parseDecimal, ParamValue.toHost, parseDecimalChars_sciChars x hvx]

/-- Witness for C3: concrete timestamp and decimal round-trips. -/
theorem C3_encode_decode_roundtrip_witness :
    renderValue
        (prepare_param "p" (.datetime ⟨⟨2021, 3, 14⟩, ⟨1, 59, 26, 535897⟩⟩)).value
        (some ⟨"col", matchingTypeCode (.datetime ⟨⟨2021, 3, 14⟩, ⟨1, 59, 26, 535897⟩⟩)⟩) =
      .ok (ParamValue.datetime ⟨⟨2021, 3, 14⟩, ⟨1, 59, 26, 535897⟩⟩).toHost
    ∧ renderValue (prepare_param "p" (.decimal ⟨true, [1, 0, 2], -2⟩)).value
        (some ⟨"col", matchingTypeCode (.decimal ⟨true, [1, 0, 2], -2⟩)⟩) =
      .ok (ParamValue.decimal ⟨true, [1, 0, 2], -2⟩).toHost :=
  ⟨C3_encode_decode_roundtrip (.datetime ⟨⟨2021, 3, 14⟩, ⟨1, 59, 26, 535897⟩⟩) (by decide),
   C3_encode_decode_roundtrip (.decimal ⟨true, [1, 0, 2], -2⟩) (by decide)⟩

end AuroraDataAPI
